import Mathlib

/-!
Shallow embedding of `src/decoders/sdcard_spi/pd.py` (the SD card (SPI mode)
protocol decoder) and proofs about the claims of the specification.

Modelling conventions:
- Python `int` values on the wire are modelled as `Nat` (all wire values are
  non-negative; no wrap-around arithmetic occurs in the source).
- The mutable `Decoder` instance is the structure `DecState`; annotations
  emitted through `self.put(...)` are accumulated in the `out` field in call
  order.
- A Python exception (AttributeError from `getattr` on a missing handler, or
  IndexError from indexing a too-short bit list) aborts decoding; this is
  modelled by `Option`: `none` is an uncaught exception.  Fields that Python
  leaves unset until first assignment but that are provably assigned before
  every read on all dispatchable paths (`miso`, `mosi`, `arg`, `cmd_index`,
  `ss_data`, `es_data`, `ss_crc`, `es_crc`) are plain fields initialised to 0;
  `mosi_bits`/`miso_bits` start as `[]`, so a read before the first BITS event
  fails index lookup exactly where Python raises.
- The command-name dictionaries `cmd_names`/`acmd_names` are imported by the
  source from `common.sdcard`, which is outside `src/`; they are taken as an
  abstract parameter (`Tables`), so every theorem holds for every possible
  table content.  `tablesEmpty` is a concrete instance used for closed runs
  (every lookup yields the `'Unknown'` default of `Decoder.cmd_name`).
-/

/-- One wire bit as delivered by the SPI decoder: `[bit, ss, es]`.
Index 7 of a bits list is the MSB (earliest on the wire). -/
structure Bit3 where
  val : Nat
  ss : Nat
  es : Nat
deriving DecidableEq

/-- One emitted annotation: `put(ss, es, out_ann, [cls, txt])`. -/
structure Annot where
  ss : Nat
  es : Nat
  cls : Nat
  txt : List String
deriving DecidableEq

/-- The external command-name dictionaries from `common.sdcard`
(`cmd_names`, `acmd_names`); `none` models a key that is absent. -/
structure Tables where
  cmd_names : Nat → Option String
  acmd_names : Nat → Option String

/-- A table instance with no entries: every lookup falls back to
`'Unknown'`, as in `Decoder.cmd_name`. -/
def tablesEmpty : Tables := ⟨fun _ => none, fun _ => none⟩

/-- Annotation class indices, as produced by
`SrdIntEnum.from_list('Ann', a)` over
`CMD0..CMD63, ACMD0..ACMD63, R1, R1B, R2, R3, R7, BIT, BIT_WARNING`. -/
def Ann.CMD (n : Nat) : Nat := n

def Ann.ACMD (n : Nat) : Nat := 64 + n

def Ann.R1 : Nat := 128

def Ann.R1B : Nat := 129

def Ann.R2 : Nat := 130

def Ann.R3 : Nat := 131

def Ann.R7 : Nat := 132

def Ann.BIT : Nat := 133

def Ann.BIT_WARNING : Nat := 134

/-- Python `'%x' % n`: lowercase hex digits, no padding. -/
def hexStr (n : Nat) : String := (Nat.toDigits 16 n).asString

/-- Python `'%0wx' % n`: zero-padded to width `w` lowercase hex. -/
def pyHex (w n : Nat) : String :=
  let s := hexStr n
  String.mk (List.replicate (w - s.length) '0') ++ s

/-- Python `'%s' % list_of_ints`: `repr` of a list of integers. -/
def pyListRepr (l : List Nat) : String :=
  "[" ++ String.intercalate ", " (l.map toString) ++ "]"

/-- A single-quote character, used in the `'Don\'t care'` annotation text. -/
def sqc : String := (Char.ofNat 39).toString

/-- Build the 8-entry bits list of one byte as the SPI decoder delivers it:
index `i` holds bit `i` of the byte, the MSB (index 7) is earliest on the
wire; `t` is the start sample of the byte, each bit lasts one time unit. -/
def mkBits (t b : Nat) : List Bit3 :=
  [⟨b &&& 1, t + 7, t + 8⟩,
   ⟨(b >>> 1) &&& 1, t + 6, t + 7⟩,
   ⟨(b >>> 2) &&& 1, t + 5, t + 6⟩,
   ⟨(b >>> 3) &&& 1, t + 4, t + 5⟩,
   ⟨(b >>> 4) &&& 1, t + 3, t + 4⟩,
   ⟨(b >>> 5) &&& 1, t + 2, t + 3⟩,
   ⟨(b >>> 6) &&& 1, t + 1, t + 2⟩,
   ⟨(b >>> 7) &&& 1, t, t + 1⟩]

/-- The mutable state of the `Decoder` instance (fields of `reset()` plus the
attributes assigned later in `decode`/`handle_command_token`), together with
the stream of annotations emitted so far (`out`). -/
structure DecState where
  state : String := "IDLE"
  ss : Nat := 0
  es : Nat := 0
  ss_bit : Nat := 0
  es_bit : Nat := 0
  ss_cmd : Nat := 0
  es_cmd : Nat := 0
  ss_busy : Nat := 0
  es_busy : Nat := 0
  cmd_token : List Nat := []
  cmd_token_bits : List (List Bit3) := []
  is_acmd : Bool := false
  blocklen : Nat := 0
  read_buf : List Nat := []
  read_bits : List (List Bit3) := []
  cmd_str : String := ""
  is_cmd24 : Bool := false
  cmd24_start_token_found : Bool := false
  is_cmd17 : Bool := false
  cmd17_start_token_found : Bool := false
  busy_first_byte : Bool := false
  mosi_bits : List Bit3 := []
  miso_bits : List Bit3 := []
  miso : Nat := 0
  mosi : Nat := 0
  cmd_index : Nat := 0
  arg : Nat := 0
  ss_data : Nat := 0
  es_data : Nat := 0
  ss_crc : Nat := 0
  es_crc : Nat := 0
  out : List Annot := []
deriving DecidableEq

/-- The state right after `Decoder.reset()` with no annotations emitted. -/
def resetState : DecState := {}

/-- `self.put(ss, es, self.out_ann, data)`: append one annotation. -/
def DecState.put (s : DecState) (ss es cls : Nat) (txt : List String) : DecState :=
  { s with out := s.out ++ [⟨ss, es, cls, txt⟩] }

/-- `Decoder.putx`. -/
def putx (s : DecState) (cls : Nat) (txt : List String) : DecState :=
  s.put s.ss_cmd s.es_cmd cls txt

/-- `Decoder.putc`. -/
def putc (s : DecState) (cls : Nat) (desc : String) : DecState :=
  putx s cls [s.cmd_str ++ ": " ++ desc]

/-- `Decoder.putb`. -/
def putb (s : DecState) (cls : Nat) (txt : List String) : DecState :=
  s.put s.ss_bit s.es_bit cls txt

/-- The ubiquitous source pattern `self.ss_bit, self.es_bit = x, y` followed
by `self.putb(...)`: store the bit range, then emit. -/
def putb_at (s : DecState) (x y cls : Nat) (txt : List String) : DecState :=
  putb { s with ss_bit := x, es_bit := y } cls txt

/-- `self.state = st`. -/
def setState (s : DecState) (st : String) : DecState := { s with state := st }

/-- `self.cmd_index = c` (pd.py line 138). -/
def setIdx (s : DecState) (c : Nat) : DecState := { s with cmd_index := c }

/-- `self.arg = a` (pd.py line 150). -/
def setArgF (s : DecState) (a : Nat) : DecState := { s with arg := a }

/-- `self.is_acmd = False` (pd.py lines 142/144). -/
def clearAcmd (s : DecState) : DecState := { s with is_acmd := false }

/-- `self.ss_cmd, self.es_cmd = x, y` (pd.py line 323). -/
def setCmdRange (s : DecState) (x y : Nat) : DecState := { s with ss_cmd := x, es_cmd := y }

/-- `self.read_buf.append(b)`. -/
def pushRead (s : DecState) (b : Nat) : DecState := { s with read_buf := s.read_buf ++ [b] }

/-- End of the R2 decode: `self.state = 'IDLE'; self.read_buf = []`. -/
def endResp2 (s : DecState) : DecState := { s with state := "IDLE", read_buf := [] }

/-- End of the R3/R7 decode: `self.state = 'IDLE'; self.read_buf = [];
self.read_bits = []`. -/
def endResp5 (s : DecState) : DecState :=
  { s with state := "IDLE", read_buf := [], read_bits := [] }

/-- `Decoder.cmd_name`. -/
def cmd_name (T : Tables) (is_acmd : Bool) (cmd : Nat) : String :=
  let c := if is_acmd then T.acmd_names else T.cmd_names
  let s := (c cmd).getD "Unknown"
  if cmd = 32 ∨ cmd = 33 then s ++ "_ADDR" else s

/-- `tb(byte, bit)` of `handle_command_token`:
`self.cmd_token_bits[5 - byte][bit]`. -/
def tbGet (tbits : List (List Bit3)) (byte bit : Nat) : Option Bit3 :=
  match tbits.get? (5 - byte) with
  | none => none
  | some l => l.get? bit

/-- The nine token bits read by `handle_command_token` via `tb(...)`. -/
structure TokBits where
  b57 : Bit3
  b56 : Bit3
  b55 : Bit3
  b50 : Bit3
  b47 : Bit3
  b10 : Bit3
  b07 : Bit3
  b01 : Bit3
  b00 : Bit3
deriving DecidableEq

/-- Fetch all of `tb(5,7) tb(5,6) tb(5,5) tb(5,0) tb(4,7) tb(1,0) tb(0,7)
tb(0,1) tb(0,0)`.  Every one of these reads is unconditional on the 6-byte
path of `handle_command_token`, so prefetching them is equivalent to the
source's interleaved reads: a missing index raises (aborts) either way. -/
def getTokBits (tbits : List (List Bit3)) : Option TokBits :=
  (tbGet tbits 5 7).bind fun b57 =>
  (tbGet tbits 5 6).bind fun b56 =>
  (tbGet tbits 5 5).bind fun b55 =>
  (tbGet tbits 5 0).bind fun b50 =>
  (tbGet tbits 4 7).bind fun b47 =>
  (tbGet tbits 1 0).bind fun b10 =>
  (tbGet tbits 0 7).bind fun b07 =>
  (tbGet tbits 0 1).bind fun b01 =>
  (tbGet tbits 0 0).bind fun b00 =>
  some ⟨b57, b56, b55, b50, b47, b10, b07, b01, b00⟩

/-- `# Handle command.` — the final dispatch of `handle_command_token`
(pd.py lines 167-174).  `sStr` re-reads `self.is_acmd`, which is unchanged
since the source computed `s` at line 146. -/
def hct_finish (T : Tables) (cmd t0 t1 t2 t3 t4 t5 : Nat) (rest : List Nat)
    (s : DecState) : Option DecState :=
  let sStr := if s.is_acmd then "ACMD" else "CMD"
  if cmd ∈ [0, 1, 8, 9, 13, 16, 17, 24, 41, 49, 55, 58, 59] then
    some { s with state := "HANDLE CMD" ++ toString cmd,
                  cmd_str := sStr ++ toString cmd ++ " (" ++ cmd_name T s.is_acmd cmd ++ ")" }
  else
    -- `'%s%d: %02x %02x %02x %02x %02x %02x' % ((s, cmd) + tuple(t))`:
    -- a TypeError (too many/few format arguments) unless exactly 6 bytes.
    match rest with
    | [] =>
      let a := sStr ++ toString cmd ++ ": " ++ pyHex 2 t0 ++ " " ++ pyHex 2 t1 ++ " " ++
               pyHex 2 t2 ++ " " ++ pyHex 2 t3 ++ " " ++ pyHex 2 t4 ++ " " ++ pyHex 2 t5
      some (putx (setState s "HANDLE CMD999") cmd [a])
    | _ => none

/-- The pure tail of `handle_command_token` once all six token bytes are
available and the nine `tb(...)` reads succeeded. -/
def hct_full (T : Tables) (s1 : DecState) (tB : TokBits)
    (t0 t1 t2 t3 t4 t5 : Nat) (rest : List Nat) : Option DecState :=
  -- Bits[47:47]: Start bit (always 0)
  let s : DecState :=
    if tB.b57.val = 0 then
      putb_at s1 tB.b57.ss tB.b57.es Ann.BIT ["Start bit: " ++ toString tB.b57.val]
    else
      putb_at s1 tB.b57.ss tB.b57.es Ann.BIT_WARNING
        ["Start bit: " ++ toString tB.b57.val ++ " (Warning: Must be 0!)"]
  -- Bits[46:46]: Transmitter bit (1 == host)
  let s : DecState :=
    if tB.b56.val = 1 then
      putb_at s tB.b56.ss tB.b56.es Ann.BIT ["Transmitter bit: " ++ toString tB.b56.val]
    else
      putb_at s tB.b56.ss tB.b56.es Ann.BIT_WARNING
        ["Transmitter bit: " ++ toString tB.b56.val ++ " (Warning: Must be 1!)"]
  -- Bits[45:40]: Command index
  let cmd := t0 &&& 0x3f
  let s : DecState := setIdx s cmd
  -- Leave ACMD mode if no intervening ACMD since previous CMD55.
  let s : DecState :=
    if cmd = 55 then clearAcmd s
    else if ¬ (cmd ∈ [13, 18, 22, 23, 25, 26, 38, 41, 42, 43, 44, 45, 46, 47, 48, 49, 51]) then
      clearAcmd s
    else s
  let sStr := if s.is_acmd then "ACMD" else "CMD"
  let s : DecState :=
    putb_at s tB.b55.ss tB.b50.es Ann.BIT
      ["Command: " ++ sStr ++ toString cmd ++ " (" ++ cmd_name T s.is_acmd cmd ++ ")"]
  -- Bits[39:8]: Argument
  let arg := (t1 <<< 24) ||| (t2 <<< 16) ||| (t3 <<< 8) ||| t4
  let s : DecState := setArgF s arg
  let s : DecState := putb_at s tB.b47.ss tB.b10.es Ann.BIT ["Argument: 0x" ++ pyHex 4 arg]
  -- Bits[7:1]: CRC7 (reported, not checked)
  let crc := t5 >>> 1
  let s : DecState := putb_at s tB.b07.ss tB.b01.es Ann.BIT ["CRC7: 0x" ++ pyHex 1 crc]
  -- Bits[0:0]: End bit (always 1)
  let s : DecState :=
    if tB.b00.val = 1 then
      putb_at s tB.b00.ss tB.b00.es Ann.BIT ["End bit: " ++ toString tB.b00.val]
    else
      putb_at s tB.b00.ss tB.b00.es Ann.BIT_WARNING
        ["End bit: " ++ toString tB.b00.val ++ " (Warning: Must be 1!)"]
  -- Handle command.
  hct_finish T cmd t0 t1 t2 t3 t4 t5 rest s

def handle_command_token (T : Tables) (mosi : Nat) (s0 : DecState) : Option DecState :=
  let s : DecState := if s0.cmd_token.length = 0 then { s0 with ss_cmd := s0.ss } else s0
  let s : DecState := { s with cmd_token := s.cmd_token ++ [mosi],
                               cmd_token_bits := s.cmd_token_bits ++ [s.mosi_bits] }
  if s.cmd_token.length < 6 then some s else
  let s : DecState := { s with es_cmd := s.es }
  match getTokBits s.cmd_token_bits with
  | none => none
  | some tB =>
    match s.cmd_token with
    | t0 :: t1 :: t2 :: t3 :: t4 :: t5 :: rest => hct_full T s tB t0 t1 t2 t3 t4 t5 rest
    | _ => none

/-- `Decoder.handle_cmd0`. -/
def handle_cmd0 (s : DecState) : DecState :=
  { putc s (Ann.CMD 0) "Reset the SD card" with state := "GET RESPONSE R1" }

/-- `Decoder.handle_cmd1`. -/
def handle_cmd1 (s0 : DecState) : Option DecState :=
  let s := putc s0 (Ann.CMD 1) "Send HCS info and activate the card init process"
  let hcs := (s.arg &&& (1 <<< 30)) >>> 30
  match s.cmd_token_bits.get? (5 - 4) with
  | none => none
  | some l =>
    match l.get? 6 with
    | none => none
    | some b =>
      let s := putb_at s b.ss b.es Ann.BIT ["HCS: " ++ toString hcs]
      some (setState s "GET RESPONSE R1")

/-- `Decoder.handle_cmd8`. -/
def handle_cmd8 (s : DecState) : DecState :=
  { putc s (Ann.CMD 8) "Send interface condition" with
    read_buf := [], read_bits := [], state := "GET RESPONSE R7" }

/-- `Decoder.handle_cmd9` (note the source's FIXME: 16 + 4 bytes are
accumulated and the first 4 dropped before the CSD is reported). -/
def cmd9_end (s0 : DecState) : DecState :=
  let s := { s0 with es_cmd := s0.es }
  let s := { s with read_buf := s.read_buf.drop 4 }
  let s := putx s (Ann.CMD 9) ["CSD: " ++ pyListRepr s.read_buf]
  { s with read_buf := [], state := "IDLE" }

def handle_cmd9 (s0 : DecState) : DecState :=
  let s := putc s0 (Ann.CMD 9) "Ask card to send its card specific data (CSD)"
  let s := if s.read_buf.length = 0 then { s with ss_cmd := s.ss } else s
  let s := pushRead s s.miso
  if s.read_buf.length < 16 + 4 then s else cmd9_end s

/-- `Decoder.handle_cmd10` (present in the source; unreachable because the
command-index dispatch of `handle_command_token` routes 10 to CMD999). -/
def cmd10_end (s0 : DecState) : DecState :=
  let s := putx s0 (Ann.CMD 10) ["CID: " ++ pyListRepr s0.read_buf]
  { s with read_buf := [], state := "GET RESPONSE R1" }

def handle_cmd10 (s0 : DecState) : DecState :=
  let s := putc s0 (Ann.CMD 10) "Ask card to send its card identification (CID)"
  let s := pushRead s s.miso
  if s.read_buf.length < 16 then s else cmd10_end s

/-- `Decoder.handle_cmd13`. -/
def handle_cmd13 (s : DecState) : DecState :=
  { putc s (Ann.CMD 13) "Ask card to send its status register" with
    read_buf := [], state := "GET RESPONSE R2" }

/-- `Decoder.handle_cmd16`. -/
def handle_cmd16 (s0 : DecState) : DecState :=
  let s := { s0 with blocklen := s0.arg }
  { putc s (Ann.CMD 16) ("Set the block length to " ++ toString s.blocklen ++ " bytes") with
    state := "GET RESPONSE R1" }

/-- `Decoder.handle_cmd17`. -/
def handle_cmd17 (s : DecState) : DecState :=
  { putc s (Ann.CMD 17) ("Read a block from address 0x" ++ pyHex 4 s.arg) with
    is_cmd17 := true, state := "GET RESPONSE R1" }

/-- `Decoder.handle_cmd24`. -/
def handle_cmd24 (s : DecState) : DecState :=
  { putc s (Ann.CMD 24) ("Write a block to address 0x" ++ pyHex 4 s.arg) with
    is_cmd24 := true, state := "GET RESPONSE R1" }

/-- `Decoder.handle_cmd49`. -/
def handle_cmd49 (s : DecState) : DecState :=
  { s with state := "GET RESPONSE R1" }

/-- `Decoder.handle_cmd55`. -/
def handle_cmd55 (s : DecState) : DecState :=
  { putc s (Ann.CMD 55) "Next command is an application-specific command" with
    is_acmd := true, state := "GET RESPONSE R1" }

/-- `Decoder.handle_cmd58`. -/
def handle_cmd58 (s : DecState) : DecState :=
  { putc s (Ann.CMD 58) "Read the OCR register" with
    read_buf := [], read_bits := [], state := "GET RESPONSE R3" }

/-- `Decoder.handle_cmd59`. -/
def handle_cmd59 (s : DecState) : DecState :=
  let crc_on_off := s.arg &&& 1
  let onoff := if crc_on_off = 1 then "on" else "off"
  { putc s (Ann.CMD 59) ("Turn the SD card CRC option " ++ onoff) with
    state := "GET RESPONSE R1" }

/-- `Decoder.handle_acmd41`. -/
def handle_acmd41 (s : DecState) : DecState :=
  { putc s (Ann.ACMD 41) "Send HCS info and activate the card init process" with
    state := "GET RESPONSE R1" }

/-- `Decoder.handle_cmd999`. -/
def handle_cmd999 (s : DecState) : DecState :=
  { s with state := "GET RESPONSE R1" }

/-- The eight entries of a MISO bits list (`self.miso_bits[0..7]`). -/
structure Bits8 where
  b0 : Bit3
  b1 : Bit3
  b2 : Bit3
  b3 : Bit3
  b4 : Bit3
  b5 : Bit3
  b6 : Bit3
  b7 : Bit3
deriving DecidableEq

/-- Fetch all eight bit entries of one byte's bits list.  `handle_response_r1`
reads `miso_bits[7]`, `miso_bits[0]` and then every bit 0..7 unconditionally,
so prefetching is equivalent: a short list raises (aborts) either way. -/
def get8 (m : List Bit3) : Option Bits8 :=
  (m.get? 0).bind fun b0 =>
  (m.get? 1).bind fun b1 =>
  (m.get? 2).bind fun b2 =>
  (m.get? 3).bind fun b3 =>
  (m.get? 4).bind fun b4 =>
  (m.get? 5).bind fun b5 =>
  (m.get? 6).bind fun b6 =>
  (m.get? 7).bind fun b7 =>
  some ⟨b0, b1, b2, b3, b4, b5, b6, b7⟩

/-- Annotation-emitting part of `Decoder.handle_response_r1` once the bits are
available (everything before the trailing state-transition `if`s). -/
def r1_chain (res : Nat) (m : Bits8) (s0 : DecState) : DecState :=
  let s := setCmdRange s0 m.b7.ss m.b0.es
  let s := putx s Ann.R1 ["R1: 0x" ++ pyHex 2 res]
  -- Bit 0: 'In idle state' bit
  let s := putb_at s m.b0.ss m.b0.es Ann.BIT
    ["Card is " ++ (if res &&& 1 ≠ 0 then "" else "not ") ++ "in idle state"]
  -- Bit 1: 'Erase reset' bit
  let s := putb_at s m.b1.ss m.b1.es Ann.BIT
    ["Erase sequence " ++ (if res &&& 2 ≠ 0 then "" else "not ") ++ "cleared"]
  -- Bit 2: 'Illegal command' bit
  let s := putb_at s m.b2.ss m.b2.es Ann.BIT
    [(if res &&& 4 ≠ 0 then "I" else "No i") ++ "llegal command detected"]
  -- Bit 3: 'Communication CRC error' bit
  let s := putb_at s m.b3.ss m.b3.es Ann.BIT
    ["CRC check of last command " ++ (if res &&& 8 ≠ 0 then "failed" else "was successful")]
  -- Bit 4: 'Erase sequence error' bit
  let s := putb_at s m.b4.ss m.b4.es Ann.BIT
    [(if res &&& 16 ≠ 0 then "E" else "No e") ++ "rror in the sequence of erase commands"]
  -- Bit 5: 'Address error' bit
  let s := putb_at s m.b5.ss m.b5.es Ann.BIT
    [(if res &&& 32 ≠ 0 then "M" else "No m") ++ "isaligned address used in command"]
  -- Bit 6: 'Parameter error' bit
  let s := putb_at s m.b6.ss m.b6.es Ann.BIT
    ["Command argument " ++ (if res &&& 64 ≠ 0 then "" else "not ") ++ "outside allowed range"]
  -- Bit 7: Always set to 0
  putb_at s m.b7.ss m.b7.es Ann.BIT ["Bit 7 (always 0)"]

/-- Trailing state-transition `if`s of `Decoder.handle_response_r1`. -/
def r1_tail (s : DecState) : DecState :=
  let s := if s.is_cmd17 then setState s "HANDLE DATA BLOCK CMD17" else s
  if s.is_cmd24 then setState s "HANDLE DATA BLOCK CMD24" else s

/-- Pure tail of `Decoder.handle_response_r1` once the bits are available. -/
def r1_full (res : Nat) (m : Bits8) (s0 : DecState) : DecState :=
  r1_tail (r1_chain res m s0)

/-- `Decoder.handle_response_r1`. -/
def handle_response_r1 (res : Nat) (s0 : DecState) : Option DecState :=
  match get8 s0.miso_bits with
  | none => none
  | some m => some (r1_full res m s0)

/-- `Decoder.handle_response_r1b` (`pass`). -/
def handle_response_r1b (_res : Nat) (s : DecState) : Option DecState :=
  some s

/-- Pure tail of the 2nd-byte branch of `Decoder.handle_response_r2`.
Note the source quirk kept verbatim: bits 5 and 6 are computed from `res`
(the just-received byte) while the neighbouring bits use `status`. -/
def r2_full (res r1v status : Nat) (m : Bits8) (s0 : DecState) : DecState :=
  let s := putx s0 Ann.R2 ["R2: [R1: 0x" ++ pyHex 2 r1v ++ ", Status: 0x" ++ pyHex 2 status ++ "]"]
  -- Bit 0: 'Card is locked' bit
  let s := putb_at s m.b0.ss m.b0.es Ann.BIT
    ["Card is " ++ (if status &&& 1 ≠ 0 then "" else "un") ++ "locked"]
  -- Bit 1: 'Write protect erase skip | lock/unlock command failed' bit
  let s := putb_at s m.b1.ss m.b1.es Ann.BIT
    [(if status &&& 2 ≠ 0 then "A" else "No a") ++ "ttempt to erase a write-protected sector | " ++
     (if status &&& 2 ≠ 0 then "E" else "No e") ++ "rror in card lock/unlock operation"]
  -- Bit 2: 'Error:' bit
  let s := putb_at s m.b2.ss m.b2.es Ann.BIT
    [(if status &&& 4 ≠ 0 then "G" else "No g") ++ "eneral or unknown error"]
  -- Bit 3: 'CC error' bit
  let s := putb_at s m.b3.ss m.b3.es Ann.BIT
    [(if status &&& 8 ≠ 0 then "I" else "No i") ++ "nternal card controller error"]
  -- Bit 4: 'Card ECC failed' bit
  let s := putb_at s m.b4.ss m.b4.es Ann.BIT
    [(if status &&& 16 ≠ 0 then "" else "No ") ++ "ECC failure to correct data"]
  -- Bit 5: 'Write protect violation' bit (source uses `res` here)
  let s := putb_at s m.b5.ss m.b5.es Ann.BIT
    [(if res &&& 32 ≠ 0 then "W" else "No w") ++ "rite protect violation"]
  -- Bit 6: 'Erase param' bit (source uses `res` here)
  let s := putb_at s m.b6.ss m.b6.es Ann.BIT
    [(if res &&& 64 ≠ 0 then "I" else "No i") ++ "nvalid selection for erase, sectors or groups"]
  -- Bit 7: 'Out of range | csd overwrite' bit
  let s := putb_at s m.b7.ss m.b7.es Ann.BIT
    [(if status &&& 128 ≠ 0 then "O" else "No o") ++ "ut of range | " ++
     (if status &&& 128 ≠ 0 then "C" else "No C") ++ "SD overwrite"]
  endResp2 s

/-- `Decoder.handle_response_r2`. -/
def handle_response_r2 (res : Nat) (s0 : DecState) : Option DecState :=
  let s := { s0 with es_cmd := s0.es, read_buf := s0.read_buf ++ [res] }
  if s.read_buf.length = 1 then
    match handle_response_r1 res s with
    | none => none
    | some s1 => some (putx s1 Ann.R2 ["R2: 0x" ++ pyHex 2 res])
  else
    match s.read_buf.get? 0, s.read_buf.get? 1, get8 s.miso_bits with
    | some r1v, some status, some m => some (r2_full res r1v status m s)
    | _, _, _ => none

/-- `get_bit(b)` of `handle_response_r3`/`handle_response_r7`:
`self.read_bits[(5 - (b // 8)) - 1][b % 8]`. -/
def respBit (rbits : List (List Bit3)) (b : Nat) : Option Bit3 :=
  match rbits.get? ((5 - b / 8) - 1) with
  | none => none
  | some l => l.get? (b % 8)

/-- The bits 31..24 read unconditionally by the 5th-byte branch of
`handle_response_r3` via `get_bit(...)`. -/
structure R3High where
  pub : Bit3
  b30 : Bit3
  b29 : Bit3
  b28 : Bit3
  b27 : Bit3
  b26 : Bit3
  b25 : Bit3
  b24 : Bit3
deriving DecidableEq

def getR3High (rbits : List (List Bit3)) : Option R3High :=
  (respBit rbits 31).bind fun pub =>
  (respBit rbits 30).bind fun b30 =>
  (respBit rbits 29).bind fun b29 =>
  (respBit rbits 28).bind fun b28 =>
  (respBit rbits 27).bind fun b27 =>
  (respBit rbits 26).bind fun b26 =>
  (respBit rbits 25).bind fun b25 =>
  (respBit rbits 24).bind fun b24 =>
  some ⟨pub, b30, b29, b28, b27, b26, b25, b24⟩

/-- The bits read by `handle_response_r3` only on the non-UHS-II path
(voltage window 23..15 in dict insertion order 15,...,23 and the reserved
ranges 14..8, 7, 6..0). -/
structure R3Low where
  v15 : Bit3
  v16 : Bit3
  v17 : Bit3
  v18 : Bit3
  v19 : Bit3
  v20 : Bit3
  v21 : Bit3
  v22 : Bit3
  v23 : Bit3
  b14 : Bit3
  b8 : Bit3
  b7 : Bit3
  b6 : Bit3
  b0 : Bit3
deriving DecidableEq

def getR3Low (rbits : List (List Bit3)) : Option R3Low :=
  (respBit rbits 15).bind fun v15 =>
  (respBit rbits 16).bind fun v16 =>
  (respBit rbits 17).bind fun v17 =>
  (respBit rbits 18).bind fun v18 =>
  (respBit rbits 19).bind fun v19 =>
  (respBit rbits 20).bind fun v20 =>
  (respBit rbits 21).bind fun v21 =>
  (respBit rbits 22).bind fun v22 =>
  (respBit rbits 23).bind fun v23 =>
  (respBit rbits 14).bind fun b14 =>
  (respBit rbits 8).bind fun b8 =>
  (respBit rbits 7).bind fun b7 =>
  (respBit rbits 6).bind fun b6 =>
  (respBit rbits 0).bind fun b0 =>
  some ⟨v15, v16, v17, v18, v19, v20, v21, v22, v23, b14, b8, b7, b6, b0⟩

/-- Annotations for OCR bits 31..24 of `handle_response_r3`. -/
def r3_high_full (hi : R3High) (s0 : DecState) : DecState :=
  let power_up_status := hi.pub.val
  -- Bit 31: 'Card power up status bit (busy)'.
  let s := putb_at s0 hi.pub.ss hi.pub.es Ann.BIT
    ["Card has " ++ (if power_up_status ≠ 0 then "" else "not ") ++ "finished the power up routine"]
  -- Bit 30: 'Card Capacity Status (CCS)', valid only with power-up set.
  let cap := if power_up_status ≠ 0 then (if hi.b30.val ≠ 0 then "SDHC or SDXC" else "SDSC")
             else "unknown"
  let s := putb_at s hi.b30.ss hi.b30.es Ann.BIT
    ["Card capacity is " ++ cap]
  -- Bit 29: 'UHS-II Card Status'.
  let s := putb_at s hi.b29.ss hi.b29.es Ann.BIT
    ["UHS-II interface " ++ (if hi.b29.val ≠ 0 then "" else "not ") ++ "supported"]
  -- Bit 28: 'reserved'.
  let s := putb_at s hi.b28.ss hi.b28.es Ann.BIT ["Reserved"]
  -- Bit 27: 'Over 2TB support Status (CO2T)'.
  let s := putb_at s hi.b27.ss hi.b27.es Ann.BIT
    ["Over 2TB is " ++ (if hi.b27.val ≠ 0 then "" else "not ") ++ "supported"]
  -- Bits 26..25: 'reserved'.
  let s := putb_at s hi.b26.ss hi.b25.es Ann.BIT ["Reserved"]
  -- Bit 24: 'Switching to 1.8V Accepted (S18A)'.
  putb_at s hi.b24.ss hi.b24.es Ann.BIT
    ["Switching to 1.8V " ++ (if hi.b24.val ≠ 0 then "" else "not ") ++ "accepted"]

/-- Annotations for OCR bits 23..0 of `handle_response_r3` (non-UHS-II). -/
def r3_low_full (lo : R3Low) (s0 : DecState) : DecState :=
  -- Bits 23..15: the supported voltage ranges, dict insertion order.
  let s := putb_at s0 lo.v15.ss lo.v15.es Ann.BIT
    ["2.7-2.8V " ++ (if lo.v15.val ≠ 0 then "" else "not ") ++ "supported"]
  let s := putb_at s lo.v16.ss lo.v16.es Ann.BIT
    ["2.8-2.9V " ++ (if lo.v16.val ≠ 0 then "" else "not ") ++ "supported"]
  let s := putb_at s lo.v17.ss lo.v17.es Ann.BIT
    ["2.9-3.0V " ++ (if lo.v17.val ≠ 0 then "" else "not ") ++ "supported"]
  let s := putb_at s lo.v18.ss lo.v18.es Ann.BIT
    ["3.0-3.1V " ++ (if lo.v18.val ≠ 0 then "" else "not ") ++ "supported"]
  let s := putb_at s lo.v19.ss lo.v19.es Ann.BIT
    ["3.1-3.2V " ++ (if lo.v19.val ≠ 0 then "" else "not ") ++ "supported"]
  let s := putb_at s lo.v20.ss lo.v20.es Ann.BIT
    ["3.2-3.3V " ++ (if lo.v20.val ≠ 0 then "" else "not ") ++ "supported"]
  let s := putb_at s lo.v21.ss lo.v21.es Ann.BIT
    ["3.3-3.4V " ++ (if lo.v21.val ≠ 0 then "" else "not ") ++ "supported"]
  let s := putb_at s lo.v22.ss lo.v22.es Ann.BIT
    ["3.4-3.5V " ++ (if lo.v22.val ≠ 0 then "" else "not ") ++ "supported"]
  let s := putb_at s lo.v23.ss lo.v23.es Ann.BIT
    ["3.5-3.6V " ++ (if lo.v23.val ≠ 0 then "" else "not ") ++ "supported"]
  -- Bits 14..8: 'reserved'.
  let s := putb_at s lo.b14.ss lo.b8.es Ann.BIT ["Reserved"]
  -- Bit 7: 'Reserved for Low Voltage Range'.
  let s := putb_at s lo.b7.ss lo.b7.es Ann.BIT ["Reserved"]
  -- Bits 6..0: 'reserved'.
  putb_at s lo.b6.ss lo.b0.es Ann.BIT ["Reserved"]

/-- `Decoder.handle_response_r3`. -/
def handle_response_r3 (res : Nat) (s0 : DecState) : Option DecState :=
  let s := { s0 with es_cmd := s0.es,
                     read_buf := s0.read_buf ++ [res],
                     read_bits := s0.read_bits ++ [s0.miso_bits] }
  if s.read_buf.length = 1 then
    match handle_response_r1 res s with
    | none => none
    | some s1 => some (putx s1 Ann.R3 ["R1: 0x" ++ pyHex 2 res])
  else if s.read_buf.length < 5 then some s
  else
    match s.read_buf.get? 0, s.read_buf.get? 1, s.read_buf.get? 2,
          s.read_buf.get? 3, s.read_buf.get? 4 with
    | some r1v, some o1, some o2, some o3, some o4 =>
      let ocr := (o1 <<< 24) ||| (o2 <<< 16) ||| (o3 <<< 8) ||| o4
      let s := putx s Ann.R3 ["R3: [R1: 0x" ++ pyHex 2 r1v ++ ", OCR: 0x" ++ pyHex 8 ocr ++ "]"]
      match getR3High s.read_bits with
      | none => none
      | some hi =>
        let s := r3_high_full hi s
        -- Bits 23..0 are interpreted differently depending upon UHS-II.
        if hi.b29.val ≠ 0 then
          some (endResp5 s)
        else
          match getR3Low s.read_bits with
          | none => none
          | some lo => some (endResp5 (r3_low_full lo s))
    | _, _, _, _, _ => none

/-- `decode_voltage` of `Decoder.handle_response_r7`. -/
def decode_voltage (value : Nat) : String :=
  if value = 0 then "Not Defined"
  else if value = 1 then "2.7-3.6V"
  else if value = 2 then "Reserved for Low Voltage Range"
  else if value = 4 then "Reserved"
  else if value = 8 then "Reserved"
  else "Not Defined"

/-- The eight bit-range boundaries read by the 5th-byte branch of
`handle_response_r7` via `get_bit(...)`, all unconditional. -/
structure R7Bits where
  b31 : Bit3
  b28 : Bit3
  b27 : Bit3
  b12 : Bit3
  b11 : Bit3
  b8 : Bit3
  b7 : Bit3
  b0 : Bit3
deriving DecidableEq

def getR7Bits (rbits : List (List Bit3)) : Option R7Bits :=
  (respBit rbits 31).bind fun b31 =>
  (respBit rbits 28).bind fun b28 =>
  (respBit rbits 27).bind fun b27 =>
  (respBit rbits 12).bind fun b12 =>
  (respBit rbits 11).bind fun b11 =>
  (respBit rbits 8).bind fun b8 =>
  (respBit rbits 7).bind fun b7 =>
  (respBit rbits 0).bind fun b0 =>
  some ⟨b31, b28, b27, b12, b11, b8, b7, b0⟩

/-- Pure tail of the 5th-byte branch of `handle_response_r7`. -/
def r7_full (r1v pattern : Nat) (voltage : String) (b : R7Bits) (s0 : DecState) : DecState :=
  let version := r1v >>> 4
  let s := putx s0 Ann.R7
    ["R7: [R1: 0x" ++ pyHex 2 r1v ++ ", Command Version: 0x" ++ pyHex 1 version ++
     ", Voltage Accepted: " ++ voltage ++ ", Check Pattern: 0x" ++ pyHex 2 pattern ++ "]"]
  -- Bits 31..28: 'command version'
  let s := putb_at s b.b31.ss b.b28.es Ann.BIT
    ["Command Version: 0x" ++ pyHex 1 version]
  -- Bits 27..12: 'reserved bits'
  let s := putb_at s b.b27.ss b.b12.es Ann.BIT ["Reserved"]
  -- Bits 11..8: 'voltage accepted'
  let s := putb_at s b.b11.ss b.b8.es Ann.BIT
    ["Voltage Accepted: " ++ voltage]
  -- Bits 7..0: 'check pattern'
  let s := putb_at s b.b7.ss b.b0.es Ann.BIT
    ["Check Pattern: 0x" ++ pyHex 2 pattern]
  endResp5 s

/-- `Decoder.handle_response_r7`. -/
def handle_response_r7 (res : Nat) (s0 : DecState) : Option DecState :=
  let s := { s0 with es_cmd := s0.es,
                     read_buf := s0.read_buf ++ [res],
                     read_bits := s0.read_bits ++ [s0.miso_bits] }
  if s.read_buf.length = 1 then
    match handle_response_r1 res s with
    | none => none
    | some s1 => some (putx s1 Ann.R7 ["R1: 0x" ++ pyHex 2 res])
  else if s.read_buf.length < 5 then some s
  else
    match s.read_buf.get? 0, s.read_buf.get? 3, s.read_buf.get? 4 with
    | some r1v, some rb3, some pattern =>
      match getR7Bits s.read_bits with
      | none => none
      | some b => some (r7_full r1v pattern (decode_voltage rb3) b s)
    | _, _, _ => none

/-- First data byte after the CMD17/CMD24 start token: record `ss_data` and
install the 512-byte default block size if none was negotiated. -/
def dataFirstByte (s0 : DecState) : DecState :=
  let s := { s0 with ss_data := s0.ss }
  if s.blocklen = 0 then { s with blocklen := 512 } else s

/-- `len(read_buf) == blocklen` branch of `handle_data_cmd17`. -/
def cmd17_block (s0 : DecState) : DecState :=
  let s := { s0 with es_data := s0.es }
  s.put s.ss_data s.es_data (Ann.CMD 17) ["Block data: " ++ pyListRepr s.read_buf]

/-- `len(read_buf) == blocklen + 2` branch of `handle_data_cmd17`. -/
def cmd17_crc (s0 : DecState) : DecState :=
  let s := { s0 with es_crc := s0.es }
  let s := s.put s.ss_crc s.es_crc (Ann.CMD 17) ["CRC"]
  { s with state := "IDLE", read_buf := [], cmd17_start_token_found := false,
           is_cmd17 := false }

/-- `miso == 0xfe` branch of `handle_data_cmd17`. -/
def cmd17_start_block (s0 : DecState) : DecState :=
  let s := s0.put s0.ss s0.es (Ann.CMD 17) ["Start Block"]
  { s with cmd17_start_token_found := true }

/-- `Decoder.handle_data_cmd17`. -/
def handle_data_cmd17 (miso : Nat) (s0 : DecState) : DecState :=
  if s0.cmd17_start_token_found then
    let s := if s0.read_buf.length = 0 then dataFirstByte s0 else s0
    let s := pushRead s miso
    -- Wait until block transfer completed.
    if s.read_buf.length < s.blocklen then s
    else if s.read_buf.length = s.blocklen then cmd17_block s
    else if s.read_buf.length = s.blocklen + 1 then { s with ss_crc := s.ss }
    else if s.read_buf.length = s.blocklen + 2 then cmd17_crc s
    else s
  else if miso = 0xfe then cmd17_start_block s0
  else s0

/-- Completed-block branch of `handle_data_cmd24`. -/
def cmd24_block (s0 : DecState) : DecState :=
  let s := { s0 with es_data := s0.es }
  let s := s.put s.ss_data s.es_data (Ann.CMD 24) ["Block data: " ++ pyListRepr s.read_buf]
  { s with state := "DATA RESPONSE", read_buf := [], cmd24_start_token_found := false }

/-- `mosi == 0xfe` branch of `handle_data_cmd24`. -/
def cmd24_start_block (s0 : DecState) : DecState :=
  let s := s0.put s0.ss s0.es (Ann.CMD 24) ["Start Block"]
  { s with cmd24_start_token_found := true }

/-- `Decoder.handle_data_cmd24`. -/
def handle_data_cmd24 (mosi : Nat) (s0 : DecState) : DecState :=
  if s0.cmd24_start_token_found then
    let s := if s0.read_buf.length = 0 then dataFirstByte s0 else s0
    let s := pushRead s mosi
    -- Wait until block transfer completed.
    if s.read_buf.length < s.blocklen then s
    else cmd24_block s
  else if mosi = 0xfe then cmd24_start_block s0
  else s0

/-- Closing part of `handle_data_response` ('Always 1', the optional
'Data Response' annotation, and the next-state choice). -/
def dr_tail (m0 : Bit3) (s0 : DecState) : DecState :=
  let s := s0.put m0.ss m0.es Ann.BIT ["Always 1"]
  let s := if s.is_cmd24 then s.put s.ss s.es (Ann.CMD 24) ["Data Response"] else s
  if s.is_cmd24 then
    -- We just sent a block of data to be written to the card.
    { s with state := "WAIT WHILE CARD BUSY", busy_first_byte := true }
  else
    { s with state := "IDLE" }

/-- `Decoder.handle_data_response`.  Bits `m[3]`/`m[1]` are read only inside
the three status branches, exactly as in the source. -/
def handle_data_response (miso0 : Nat) (s0 : DecState) : Option DecState :=
  let miso := miso0 &&& 0x1f
  if ¬ (miso &&& 0x11 = 0x01) then
    -- This is not the byte we are waiting for.
    some s0
  else
    match s0.miso_bits.get? 7, s0.miso_bits.get? 5, s0.miso_bits.get? 4,
          s0.miso_bits.get? 0 with
    | some m7, some m5, some m4, some m0 =>
      let s := s0.put m7.ss m5.es Ann.BIT ["Don" ++ sqc ++ "t care"]
      let s := s.put m4.ss m4.es Ann.BIT ["Always 0"]
      if miso = 0x05 ∨ miso = 0x0b ∨ miso = 0x0d then
        match s0.miso_bits.get? 3, s0.miso_bits.get? 1 with
        | some m3, some m1 =>
          let txt := if miso = 0x05 then "Data accepted"
                     else if miso = 0x0b then "Data rejected (CRC error)"
                     else "Data rejected (write error)"
          some (dr_tail m0 (s.put m3.ss m1.es Ann.BIT [txt]))
        | _, _ => none
      else some (dr_tail m0 s)
    | _, _, _, _ => none

/-- `Decoder.wait_while_busy`. -/
def wait_while_busy (miso : Nat) (s0 : DecState) : DecState :=
  if ¬ (miso = 0x00) then
    let s := if s0.is_cmd24 then
               { s0.put s0.ss_busy s0.es_busy (Ann.CMD 24) ["Card is busy"] with
                 is_cmd24 := false }
             else s0
    { s with state := "IDLE" }
  else
    if s0.busy_first_byte then { s0 with ss_busy := s0.ss, busy_first_byte := false }
    else { s0 with es_busy := s0.es }

/-- `getattr(self, 'handle_%scmd%s' % (a, cmdstr))` of `Decoder.decode`:
the handler methods that exist on the class are `handle_cmd{0,1,8,9,10,13,
16,17,24,49,55,58,59,999}` and `handle_acmd41`; any other name raises
AttributeError (`none`).  `cmdstr` is always a digit string here, so the
source's `.lower()` is the identity. -/
def handlerFor (isAcmd : Bool) (cmdstr : String) : Option (DecState → Option DecState) :=
  if isAcmd then
    if cmdstr = "41" then some (fun s => some (handle_acmd41 s)) else none
  else
    if cmdstr = "0" then some (fun s => some (handle_cmd0 s))
    else if cmdstr = "1" then some handle_cmd1
    else if cmdstr = "8" then some (fun s => some (handle_cmd8 s))
    else if cmdstr = "9" then some (fun s => some (handle_cmd9 s))
    else if cmdstr = "10" then some (fun s => some (handle_cmd10 s))
    else if cmdstr = "13" then some (fun s => some (handle_cmd13 s))
    else if cmdstr = "16" then some (fun s => some (handle_cmd16 s))
    else if cmdstr = "17" then some (fun s => some (handle_cmd17 s))
    else if cmdstr = "24" then some (fun s => some (handle_cmd24 s))
    else if cmdstr = "49" then some (fun s => some (handle_cmd49 s))
    else if cmdstr = "55" then some (fun s => some (handle_cmd55 s))
    else if cmdstr = "58" then some (fun s => some (handle_cmd58 s))
    else if cmdstr = "59" then some (fun s => some (handle_cmd59 s))
    else if cmdstr = "999" then some (fun s => some (handle_cmd999 s))
    else none

/-- `getattr(self, 'handle_response_%s' % self.state[13:].lower())`:
the response handler methods that exist are `handle_response_{r1,r1b,r2,r3,
r7}`; any other name raises AttributeError (`none`).  The suffix values that
ever occur are the uppercase `R1`/`R1B`-style strings stored in `state`. -/
def responseHandlerFor (suffix : String) : Option (Nat → DecState → Option DecState) :=
  if suffix = "R1" then some handle_response_r1
  else if suffix = "R1B" then some handle_response_r1b
  else if suffix = "R2" then some handle_response_r2
  else if suffix = "R3" then some handle_response_r3
  else if suffix = "R7" then some handle_response_r7
  else none

/-- Python `str.startswith`, as a kernel-computable prefix test on the
character lists of the two strings. -/
def pyStartsWith (s p : String) : Bool := s.data.take p.data.length == p.data

/-- One input packet, the `data` argument of `Decoder.decode`:
`('DATA', mosi, miso)`, `('BITS', mosi_bits, miso_bits)`,
`('CS-CHANGE', old, new)` (values may be `None`), or `('TRANSFER', ...)`. -/
inductive PEvent where
  | data (mosi miso : Nat)
  | bits (mosiBits misoBits : List Bit3)
  | cs (oldVal newVal : Option Nat)
  | transfer
deriving DecidableEq

/-- The state-machine dispatch of the `'DATA'` branch of `Decoder.decode`,
applied to the state that already has this packet's `ss`/`es` stored. -/
def decode_data (T : Tables) (mosi miso : Nat) (s : DecState) : Option DecState :=
    -- State machine.
    if s.state = "IDLE" then
      -- Ignore stray 0xff bytes, some devices seem to send those!?
      if mosi = 0xff then some s
      else handle_command_token T mosi { s with state := "GET COMMAND TOKEN" }
    else if s.state = "GET COMMAND TOKEN" then
      handle_command_token T mosi s
    else if pyStartsWith s.state "HANDLE CMD" then
      let s : DecState := { s with miso := miso, mosi := mosi }
      let cmdstr := s.state.drop 10
      -- Call the respective handler method for the command.
      match handlerFor s.is_acmd cmdstr with
      | none => none
      | some h =>
        match h s with
        | none => none
        | some s1 =>
          let s1 : DecState := { s1 with cmd_token := [], cmd_token_bits := [] }
          -- Leave ACMD mode again after the first command after CMD55.
          if s1.is_acmd = true ∧ ¬ (cmdstr = "55") then some { s1 with is_acmd := false }
          else some s1
    else if s.state = "GET RESPONSE R2" then handle_response_r2 miso s
    else if s.state = "GET RESPONSE R3" then handle_response_r3 miso s
    else if s.state = "GET RESPONSE R7" then handle_response_r7 miso s
    else if pyStartsWith s.state "GET RESPONSE" then
      -- Ignore stray 0xff bytes, some devices seem to send those!?
      if miso = 0xff then some s
      else
        -- Assume return to IDLE state, but allow response handlers
        -- to advance to some other state when applicable.
        match responseHandlerFor (s.state.drop 13) with
        | none => none
        | some h => h miso { s with state := "IDLE" }
    else if s.state = "HANDLE DATA BLOCK CMD17" then some (handle_data_cmd17 miso s)
    else if s.state = "HANDLE DATA BLOCK CMD24" then some (handle_data_cmd24 mosi s)
    else if s.state = "DATA RESPONSE" then handle_data_response miso s
    else if s.state = "WAIT WHILE CARD BUSY" then some (wait_while_busy miso s)
    else some s

/-- `Decoder.decode(self, ss, es, data)`: one call of the decoder entry
point.  `none` models an uncaught Python exception. -/
def decode (T : Tables) (ss es : Nat) (ev : PEvent) (s : DecState) : Option DecState :=
  match ev with
  | .bits d1 d2 =>
    -- Store the individual bit values and ss/es numbers.
    some { s with mosi_bits := d1, miso_bits := d2 }
  | .cs _ d2 =>
    -- Reset state when CS is asserted.
    if d2 = some 0 then
      some { s with state := "IDLE", read_buf := [], read_bits := [],
                    is_cmd17 := false, cmd17_start_token_found := false,
                    is_cmd24 := false, cmd24_start_token_found := false,
                    busy_first_byte := false }
    else some s
  | .transfer => some s
  | .data mosi miso =>
    decode_data T mosi miso { s with ss := ss, es := es }

/-- One timed input packet: the `(ss, es, data)` arguments of one
`Decoder.decode` call. -/
structure TimedEvent where
  ss : Nat
  es : Nat
  ev : PEvent
deriving DecidableEq

/-- Run the decoder over a list of packets, aborting on the first
uncaught exception. -/
def decodeList (T : Tables) (s : DecState) : List TimedEvent → Option DecState
  | [] => some s
  | e :: rest =>
    match decode T e.ss e.es e.ev s with
    | none => none
    | some s1 => decodeList T s1 rest

/-! ### Concrete event-sequence builders used by the claim proofs -/

/-- A BITS packet immediately followed by its DATA packet, as the SPI
decoder guarantees, for one full-duplex byte `(mo, mi)` starting at
sample `t` with one time unit per bit. -/
def bpair (t mo mi : Nat) : List TimedEvent :=
  [⟨t, t + 8, .bits (mkBits t mo) (mkBits t mi)⟩, ⟨t, t + 8, .data mo mi⟩]

/-- One MOSI byte of a partial command token, then chip select going
active (new CS level 0). -/
def c1_events : List TimedEvent :=
  bpair 0 0x40 0xff ++ [⟨8, 8, .cs (some 1) (some 0)⟩]

/-- The six bytes of a CMD55 command token
`0x77 0x00 0x00 0x00 0x00 0x01` (start bit 0, index 55, end bit 1). -/
def c2_events : List TimedEvent :=
  bpair 0 0x77 0xff ++ bpair 8 0x00 0xff ++ bpair 16 0x00 0xff ++
  bpair 24 0x00 0xff ++ bpair 32 0x00 0xff ++ bpair 40 0x01 0xff

/-- The six bytes of the CMD0 command token `0x40 00 00 00 00 95`. -/
def c6_events : List TimedEvent :=
  bpair 0 0x40 0xff ++ bpair 8 0x00 0xff ++ bpair 16 0x00 0xff ++
  bpair 24 0x00 0xff ++ bpair 32 0x00 0xff ++ bpair 40 0x95 0xff

/-- A decoder waiting for an R3 response, exactly as `handle_cmd58`
leaves it (`read_buf = []`, `read_bits = []`, phase `GET RESPONSE R3`). -/
def c8_state : DecState := { resetState with state := "GET RESPONSE R3" }

/-- The five MISO bytes `0xC0 0x08 0x00 0x00 0x00` of the R3 response of
the specification's example. -/
def c8_events : List TimedEvent :=
  bpair 0 0xff 0xc0 ++ bpair 8 0xff 0x08 ++ bpair 16 0xff 0x00 ++
  bpair 24 0xff 0x00 ++ bpair 32 0xff 0x00

/-! ### C1 -/

/-- C1, counterexample.  The claim says that a chip-select change to the
active level empties every transaction-scoped buffer including the partially
accumulated command token.  Feeding one token byte (`0x40`) and then a
CS-active change from a fresh decoder leaves `cmd_token = [0x40]`: the phase
does become IDLE, but the partial command token is not cleared (the source's
CS branch resets `read_buf`, `read_bits` and the five flags only). -/
theorem c1_counterexample :
    (decodeList tablesEmpty resetState c1_events).map (fun u => (u.state, u.cmd_token)) =
      some ("IDLE", [0x40]) ∧ ([0x40] : List Nat) ≠ [] :=
  ⟨rfl, by decide⟩

/-- C1, amended: on every chip-select change whose new level is 0 (active),
in any phase, the phase immediately becomes IDLE and the read accumulator,
its bit arrays, and the read/write-block and busy flags are cleared — but the
partially accumulated command token (`cmd_token`/`cmd_token_bits`) is left
unchanged, and no annotation is emitted. -/
theorem c1_cs_reset (T : Tables) (a b : Nat) (old : Option Nat) (s : DecState) :
    decode T a b (.cs old (some 0)) s =
      some { s with state := "IDLE", read_buf := [], read_bits := [],
                    is_cmd17 := false, cmd17_start_token_found := false,
                    is_cmd24 := false, cmd24_start_token_found := false,
                    busy_first_byte := false } ∧
    (decode T a b (.cs old (some 0)) s).map (fun u => (u.cmd_token, u.cmd_token_bits, u.out)) =
      some (s.cmd_token, s.cmd_token_bits, s.out) :=
  ⟨rfl, rfl⟩

/-! ### C2 (counterexample part) -/

/-- C2, counterexample.  The claim says `is_acmd` becomes true immediately
after the sixth byte of a CMD55 token is processed.  Running the six bytes of
a CMD55 token from a fresh decoder ends in phase `HANDLE CMD55` with
`is_acmd = false`: the sixth byte's processing explicitly clears `is_acmd`
(pd.py line 142); the flag is only set one event later, when the
`HANDLE CMD55` phase runs `handle_cmd55`. -/
theorem c2_counterexample :
    ¬ ((decodeList tablesEmpty resetState c2_events).map (fun u => u.is_acmd) = some true) ∧
    (decodeList tablesEmpty resetState c2_events).map (fun u => (u.state, u.is_acmd)) =
      some ("HANDLE CMD55", false) :=
  ⟨by decide, rfl⟩

/-! ### C6 -/

/-- C6: decoding the command token `0x40 00 00 00 00 95` (with any
command-name tables) yields command index 0 and argument 0 in the state,
emits exactly the six bit-level annotations with classes `BIT` (none with
class `BIT_WARNING`), whose texts record start bit 0, transmitter bit 1,
argument `0x0000`, CRC7 `0x4a` (`0x95 >> 1`) and end bit 1 (the erased
index-2 text is the table-dependent command-name annotation, also of class
`BIT`), and the decoder proceeds to the CMD0 handling phase. -/
theorem c6_cmd0_roundtrip (T : Tables) :
    (decodeList T resetState c6_events).map
        (fun u => (u.state, u.cmd_index, u.arg, u.out.map (fun x => x.cls))) =
      some ("HANDLE CMD0", 0, 0, [Ann.BIT, Ann.BIT, Ann.BIT, Ann.BIT, Ann.BIT, Ann.BIT]) ∧
    (decodeList T resetState c6_events).map
        (fun u => u.out.countP (fun x => x.cls == Ann.BIT_WARNING)) = some 0 ∧
    (decodeList T resetState c6_events).map
        (fun u => (u.out.map (fun x => x.txt)).eraseIdx 2) =
      some [["Start bit: 0"], ["Transmitter bit: 1"], ["Argument: 0x0000"],
            ["CRC7: 0x4a"], ["End bit: 1"]] :=
  ⟨rfl, rfl, rfl⟩

/-! ### C8 -/

/-- C8, counterexample.  The claim says the R3 response `0xC0 0x08 0x00 0x00
0x00` after a CMD58 decodes the power-up status bit (OCR bit 31) as true.
OCR bit 31 is the MSB of the first OCR byte `0x08`, which is 0, so the
decoder emits `'Card has not finished the power up routine'` and never the
"finished" text: the power-up status decodes as false (the engine does
return to idle after the 5th byte, as the claim also says). -/
theorem c8_counterexample :
    (decodeList tablesEmpty c8_state c8_events).map
        (fun u => (u.state,
          u.out.countP (fun x => x.txt == ["Card has finished the power up routine"]),
          u.out.countP (fun x => x.txt == ["Card has not finished the power up routine"]))) =
      some ("IDLE", 0, 1) ∧ ¬ ((0 : Nat) = 1) :=
  ⟨rfl, by decide⟩

/-- C8, amended: the R3 response `0xC0 0x08 0x00 0x00 0x00` received in the
`GET RESPONSE R3` phase (as entered via CMD58) decodes the card power-up
status bit (bit 31 of the 4 OCR bytes, OCR = `0x08000000`) as FALSE — the
annotation emitted is `'Card has not finished the power up routine'`, exactly
once — and the machine's phase is IDLE immediately after the fifth byte, with
the response accumulators cleared. -/
theorem c8_r3_powerup :
    (decodeList tablesEmpty c8_state c8_events).map
        (fun u => (u.state, u.read_buf, u.read_bits.length,
          u.out.countP (fun x => x.txt == ["Card has not finished the power up routine"]))) =
      some ("IDLE", [], 0, 1) :=
  rfl

/-! ### C9 -/

/-- A small completed session used to witness C9. -/
def c9_run : List TimedEvent := bpair 0 0x40 0xff

/-- C9: the decoder is a pure function of its state and input events —
delivering the same finite event sequence to two fresh decoder instances
(both equal to the `reset()` state) produces identical annotation streams,
in order, with identical time ranges, classes and texts. -/
theorem c9_deterministic (T : Tables) (evs : List TimedEvent) (s1 s2 : DecState)
    (h1 : s1 = resetState) (h2 : s2 = resetState) :
    (decodeList T s1 evs).map (fun u => u.out) =
      (decodeList T s2 evs).map (fun u => u.out) := by
  subst h1; subst h2; rfl

/-- Witness for C9 at a concrete session. -/
theorem c9_witness :
    (decodeList tablesEmpty resetState c9_run).map (fun u => u.out) =
      (decodeList tablesEmpty resetState c9_run).map (fun u => u.out) :=
  c9_deterministic tablesEmpty c9_run resetState resetState rfl rfl

/-! ### Literal-evaluation helper lemmas for the protocol state strings -/

@[simp] lemma psw_h55 : pyStartsWith "HANDLE CMD55" "HANDLE CMD" = true := rfl

@[simp] lemma drop_h55 : "HANDLE CMD55".drop 10 = "55" := rfl

@[simp] lemma psw_h41 : pyStartsWith "HANDLE CMD41" "HANDLE CMD" = true := rfl

@[simp] lemma drop_h41 : "HANDLE CMD41".drop 10 = "41" := rfl

@[simp] lemma psw_h16 : pyStartsWith "HANDLE CMD16" "HANDLE CMD" = true := rfl

@[simp] lemma drop_h16 : "HANDLE CMD16".drop 10 = "16" := rfl

@[simp] lemma psw_gr1_h : pyStartsWith "GET RESPONSE R1" "HANDLE CMD" = false := rfl

@[simp] lemma psw_gr1_g : pyStartsWith "GET RESPONSE R1" "GET RESPONSE" = true := rfl

@[simp] lemma drop13_gr1 : "GET RESPONSE R1".drop 13 = "R1" := rfl

@[simp] lemma psw_gr2_h : pyStartsWith "GET RESPONSE R2" "HANDLE CMD" = false := rfl

@[simp] lemma psw_gr3_h : pyStartsWith "GET RESPONSE R3" "HANDLE CMD" = false := rfl

@[simp] lemma psw_gr7_h : pyStartsWith "GET RESPONSE R7" "HANDLE CMD" = false := rfl

@[simp] lemma psw_hdb17_h : pyStartsWith "HANDLE DATA BLOCK CMD17" "HANDLE CMD" = false := rfl

@[simp] lemma psw_hdb17_g : pyStartsWith "HANDLE DATA BLOCK CMD17" "GET RESPONSE" = false := rfl

@[simp] lemma psw_hdb24_h : pyStartsWith "HANDLE DATA BLOCK CMD24" "HANDLE CMD" = false := rfl

@[simp] lemma psw_hdb24_g : pyStartsWith "HANDLE DATA BLOCK CMD24" "GET RESPONSE" = false := rfl

@[simp] lemma psw_dr_h : pyStartsWith "DATA RESPONSE" "HANDLE CMD" = false := rfl

@[simp] lemma psw_dr_g : pyStartsWith "DATA RESPONSE" "GET RESPONSE" = false := rfl

@[simp] lemma psw_busy_h : pyStartsWith "WAIT WHILE CARD BUSY" "HANDLE CMD" = false := rfl

@[simp] lemma psw_busy_g : pyStartsWith "WAIT WHILE CARD BUSY" "GET RESPONSE" = false := rfl

/-! ### C2 (amended part) -/

/-- C2, amended: `is_acmd` becomes true one event after the CMD55 token
completes — when the `HANDLE CMD55` phase processes its (single) byte event
and runs `handle_cmd55` — not after the token's sixth byte itself; and it
becomes false again once the single following command's handler event
completes (shown here for ACMD41, the application command proper; for
command indices without ACMD siblings the flag is already cleared when that
token's sixth byte is decoded). -/
theorem c2_acmd_window (T : Tables) (a b mo mi : Nat) (s t s1 s2 : DecState)
    (hs : s.state = "HANDLE CMD55")
    (hd : decode T a b (.data mo mi) s = some s1)
    (ht : t.state = "HANDLE CMD41") (hta : t.is_acmd = true)
    (hd2 : decode T a b (.data mo mi) t = some s2) :
    s1.is_acmd = true ∧ s2.is_acmd = false := by
  constructor
  · by_cases ha : s.is_acmd = true
    · simp [decode, decode_data, hs, ha, handlerFor] at hd
    · rw [Bool.not_eq_true] at ha
      simp [decode, decode_data, hs, ha, handlerFor, handle_cmd55, putc, putx, DecState.put] at hd
      subst hd
      rfl
  · simp [decode, decode_data, ht, hta, handlerFor, handle_acmd41, putc, putx, DecState.put] at hd2
    subst hd2
    rfl

/-- Decoder states used to witness C2: right after a completed CMD55 token,
and right after a completed CMD41 token while in ACMD mode. -/
def c2_s55 : DecState := { resetState with state := "HANDLE CMD55" }

def c2_s41 : DecState := { resetState with state := "HANDLE CMD41", is_acmd := true }

/-- Witness for C2 at concrete states and byte events. -/
theorem c2_acmd_window_witness :
    ((decode tablesEmpty 0 8 (.data 0xff 0xff) c2_s55).getD resetState).is_acmd = true ∧
    ((decode tablesEmpty 0 8 (.data 0xff 0xff) c2_s41).getD resetState).is_acmd = false :=
  c2_acmd_window tablesEmpty 0 8 0xff 0xff c2_s55 c2_s41
    ((decode tablesEmpty 0 8 (.data 0xff 0xff) c2_s55).getD resetState)
    ((decode tablesEmpty 0 8 (.data 0xff 0xff) c2_s41).getD resetState)
    rfl rfl rfl rfl rfl

/-! ### C3 -/

/-- A decoder waiting for an R2 response (as `handle_cmd13` leaves it) that
has already received its BITS packet for an incoming `0xFF` byte. -/
def c3_state : DecState :=
  { resetState with state := "GET RESPONSE R2", miso_bits := mkBits 0 0xff }

/-- C3, counterexample.  The claim says a 0xFF MISO byte is ignored in every
response-awaiting phase without mutating state or emitting annotations.  In
the `GET RESPONSE R2` phase a 0xFF byte is consumed as a response byte: the
read accumulator and the annotation stream both change (only the generic
`GET RESPONSE` branch — reached for R1 — has the 0xFF filter). -/
theorem c3_counterexample :
    ¬ ((decode tablesEmpty 0 8 (.data 0xff 0xff) c3_state).map
          (fun u => (u.read_buf, u.out)) = some (c3_state.read_buf, c3_state.out)) ∧
    (decode tablesEmpty 0 8 (.data 0xff 0xff) c3_state).map
        (fun u => (u.read_buf, u.out.length)) = some ([0xff], 10) :=
  ⟨by decide, rfl⟩

/-- C3, amended: only the R1-awaiting phase ignores stray 0xFF filler bytes
(leaving the decoder unchanged apart from the current-packet sample
bookkeeping and emitting nothing); the R2/R3/R7 phases consume every byte,
0xFF included.  The byte counts do hold: R1 decodes exactly one (non-0xFF)
byte and moves on, R2 accumulates exactly 2 bytes and R3/R7 exactly 5 bytes
before transitioning onward (shown for transactions whose read/write-block
flags are clear, as CMD13/CMD58/CMD8 leave them). -/
theorem c3_response_phases :
    (∀ (T : Tables) (a b mo : Nat) (s : DecState), s.state = "GET RESPONSE R1" →
        decode T a b (.data mo 0xff) s = some { s with ss := a, es := b }) ∧
    (∀ (T : Tables) (a b mo mi t : Nat) (s : DecState), s.state = "GET RESPONSE R1" →
        ¬ (mi = 0xff) → s.is_cmd17 = false → s.is_cmd24 = false →
        s.miso_bits = mkBits t mi →
        (decode T a b (.data mo mi) s).map (fun u => u.state) = some "IDLE") ∧
    (∀ (T : Tables) (a b mo mi t : Nat) (s : DecState), s.state = "GET RESPONSE R2" →
        s.read_buf = [] → s.is_cmd17 = false → s.is_cmd24 = false →
        s.miso_bits = mkBits t mi →
        (decode T a b (.data mo mi) s).map (fun u => (u.state, u.read_buf.length)) =
          some ("GET RESPONSE R2", 1)) ∧
    (∀ (T : Tables) (a b mo mi r t : Nat) (s : DecState), s.state = "GET RESPONSE R2" →
        s.read_buf = [r] → s.miso_bits = mkBits t mi →
        (decode T a b (.data mo mi) s).map (fun u => (u.state, u.read_buf)) =
          some ("IDLE", [])) ∧
    (∀ (T : Tables) (a b mo mi t : Nat) (s : DecState), s.state = "GET RESPONSE R3" →
        s.read_buf = [] → s.is_cmd17 = false → s.is_cmd24 = false →
        s.miso_bits = mkBits t mi →
        (decode T a b (.data mo mi) s).map (fun u => (u.state, u.read_buf.length)) =
          some ("GET RESPONSE R3", 1)) ∧
    (∀ (T : Tables) (a b mo mi k : Nat) (s : DecState), s.state = "GET RESPONSE R3" →
        s.read_buf.length = k → 1 ≤ k → k ≤ 3 →
        (decode T a b (.data mo mi) s).map (fun u => (u.state, u.read_buf.length)) =
          some ("GET RESPONSE R3", k + 1)) ∧
    (∀ (T : Tables) (a b mo mi r0 r1 r2 r3 t0 t1 t2 t3 t4 : Nat) (s : DecState),
        s.state = "GET RESPONSE R3" →
        s.read_buf = [r0, r1, r2, r3] →
        s.read_bits = [mkBits t0 r0, mkBits t1 r1, mkBits t2 r2, mkBits t3 r3] →
        s.miso_bits = mkBits t4 mi →
        (decode T a b (.data mo mi) s).map (fun u => (u.state, u.read_buf, u.read_bits)) =
          some ("IDLE", [], [])) ∧
    (∀ (T : Tables) (a b mo mi t : Nat) (s : DecState), s.state = "GET RESPONSE R7" →
        s.read_buf = [] → s.is_cmd17 = false → s.is_cmd24 = false →
        s.miso_bits = mkBits t mi →
        (decode T a b (.data mo mi) s).map (fun u => (u.state, u.read_buf.length)) =
          some ("GET RESPONSE R7", 1)) ∧
    (∀ (T : Tables) (a b mo mi k : Nat) (s : DecState), s.state = "GET RESPONSE R7" →
        s.read_buf.length = k → 1 ≤ k → k ≤ 3 →
        (decode T a b (.data mo mi) s).map (fun u => (u.state, u.read_buf.length)) =
          some ("GET RESPONSE R7", k + 1)) ∧
    (∀ (T : Tables) (a b mo mi r0 r1 r2 r3 t0 t1 t2 t3 t4 : Nat) (s : DecState),
        s.state = "GET RESPONSE R7" →
        s.read_buf = [r0, r1, r2, r3] →
        s.read_bits = [mkBits t0 r0, mkBits t1 r1, mkBits t2 r2, mkBits t3 r3] →
        s.miso_bits = mkBits t4 mi →
        (decode T a b (.data mo mi) s).map (fun u => (u.state, u.read_buf, u.read_bits)) =
          some ("IDLE", [], [])) := by
  refine ⟨?_, ?_, ?_, ?_, ?_, ?_, ?_, ?_, ?_, ?_⟩
  · intro T a b mo s hs
    simp [decode, decode_data, hs]
  · intro T a b mo mi t s hs hmi h17 h24 hmb
    simp [decode, decode_data, hs, hmi, responseHandlerFor, handle_response_r1, get8, mkBits, hmb,
          r1_full, r1_tail, r1_chain, h17, h24, putx, putb, DecState.put, putb_at, setCmdRange, setState, endResp2, endResp5, pushRead, setIdx, setArgF, clearAcmd]
  · intro T a b mo mi t s hs hrb h17 h24 hmb
    simp [decode, decode_data, hs, hrb, handle_response_r2, handle_response_r1, get8, mkBits, hmb,
          r1_full, r1_tail, r1_chain, h17, h24, putx, putb, DecState.put, putb_at, setCmdRange, setState, endResp2, endResp5, pushRead, setIdx, setArgF, clearAcmd]
  · intro T a b mo mi r t s hs hrb hmb
    simp [decode, decode_data, hs, hrb, handle_response_r2, r2_full, get8, mkBits, hmb,
          putx, putb, DecState.put, putb_at, setCmdRange, setState, endResp2, endResp5, pushRead, setIdx, setArgF, clearAcmd]
  · intro T a b mo mi t s hs hrb h17 h24 hmb
    simp [decode, decode_data, hs, hrb, handle_response_r3, handle_response_r1, get8, mkBits, hmb,
          r1_full, r1_tail, r1_chain, h17, h24, putx, putb, DecState.put, putb_at, setCmdRange, setState, endResp2, endResp5, pushRead, setIdx, setArgF, clearAcmd]
  · intro T a b mo mi k s hs hk h1 h3
    simp [decode, decode_data, hs, handle_response_r3, hk]
    rw [if_neg (by omega), if_pos (by omega)]
    simp [hk]
  · intro T a b mo mi r0 r1 r2 r3 t0 t1 t2 t3 t4 s hs hrb hbits hmb
    simp [decode, decode_data, hs, hrb, hbits, hmb, handle_response_r3, respBit, getR3High, getR3Low,
          mkBits, r3_high_full, r3_low_full, putx, putb, DecState.put, putb_at, setCmdRange, setState, endResp2, endResp5, pushRead, setIdx, setArgF, clearAcmd]
    split <;> exact ⟨_, rfl, rfl, rfl, rfl⟩
  · intro T a b mo mi t s hs hrb h17 h24 hmb
    simp [decode, decode_data, hs, hrb, handle_response_r7, handle_response_r1, get8, mkBits, hmb,
          r1_full, r1_tail, r1_chain, h17, h24, putx, putb, DecState.put, putb_at, setCmdRange, setState, endResp2, endResp5, pushRead, setIdx, setArgF, clearAcmd]
  · intro T a b mo mi k s hs hk h1 h3
    simp [decode, decode_data, hs, handle_response_r7, hk]
    rw [if_neg (by omega), if_pos (by omega)]
    simp [hk]
  · intro T a b mo mi r0 r1 r2 r3 t0 t1 t2 t3 t4 s hs hrb hbits hmb
    simp [decode, decode_data, hs, hrb, hbits, hmb, handle_response_r7, respBit, getR7Bits,
          mkBits, r7_full, putx, putb, DecState.put, putb_at, setCmdRange, setState, endResp2, endResp5, pushRead, setIdx, setArgF, clearAcmd]

/-- States used by the C3 witness, one per response-awaiting scenario. -/
def c3wA : DecState := { resetState with state := "GET RESPONSE R1" }

def c3wB : DecState := { resetState with state := "GET RESPONSE R1", miso_bits := mkBits 0 0 }

def c3wC : DecState := { resetState with state := "GET RESPONSE R2", miso_bits := mkBits 0 0xff }

def c3wD : DecState :=
  { resetState with state := "GET RESPONSE R2", read_buf := [0], miso_bits := mkBits 0 0xff }

def c3wE : DecState := { resetState with state := "GET RESPONSE R3", miso_bits := mkBits 0 0xff }

def c3wF : DecState := { resetState with state := "GET RESPONSE R3", read_buf := [1, 2] }

def c3wG : DecState :=
  { resetState with state := "GET RESPONSE R3", read_buf := [0xc0, 8, 0, 0],
                    read_bits := [mkBits 0 0xc0, mkBits 8 8, mkBits 16 0, mkBits 24 0],
                    miso_bits := mkBits 32 0 }

def c3wH : DecState := { resetState with state := "GET RESPONSE R7", miso_bits := mkBits 0 0xff }

def c3wI : DecState := { resetState with state := "GET RESPONSE R7", read_buf := [1, 2] }

def c3wJ : DecState :=
  { resetState with state := "GET RESPONSE R7", read_buf := [1, 0, 1, 0xaa],
                    read_bits := [mkBits 0 1, mkBits 8 0, mkBits 16 1, mkBits 24 0xaa],
                    miso_bits := mkBits 32 0 }

/-- Witness for C3 at concrete states and bytes, one instance per conjunct. -/
theorem c3_response_phases_witness :
    decode tablesEmpty 0 8 (.data 0xff 0xff) c3wA = some { c3wA with ss := 0, es := 8 } ∧
    (decode tablesEmpty 0 8 (.data 0xff 0) c3wB).map (fun u => u.state) = some "IDLE" ∧
    (decode tablesEmpty 0 8 (.data 0xff 0xff) c3wC).map
        (fun u => (u.state, u.read_buf.length)) = some ("GET RESPONSE R2", 1) ∧
    (decode tablesEmpty 0 8 (.data 0xff 0xff) c3wD).map
        (fun u => (u.state, u.read_buf)) = some ("IDLE", []) ∧
    (decode tablesEmpty 0 8 (.data 0xff 0xff) c3wE).map
        (fun u => (u.state, u.read_buf.length)) = some ("GET RESPONSE R3", 1) ∧
    (decode tablesEmpty 0 8 (.data 0xff 0xff) c3wF).map
        (fun u => (u.state, u.read_buf.length)) = some ("GET RESPONSE R3", 3) ∧
    (decode tablesEmpty 0 8 (.data 0xff 0) c3wG).map
        (fun u => (u.state, u.read_buf, u.read_bits)) = some ("IDLE", [], []) ∧
    (decode tablesEmpty 0 8 (.data 0xff 0xff) c3wH).map
        (fun u => (u.state, u.read_buf.length)) = some ("GET RESPONSE R7", 1) ∧
    (decode tablesEmpty 0 8 (.data 0xff 0xff) c3wI).map
        (fun u => (u.state, u.read_buf.length)) = some ("GET RESPONSE R7", 3) ∧
    (decode tablesEmpty 0 8 (.data 0xff 0) c3wJ).map
        (fun u => (u.state, u.read_buf, u.read_bits)) = some ("IDLE", [], []) :=
  ⟨c3_response_phases.1 tablesEmpty 0 8 0xff c3wA rfl,
   c3_response_phases.2.1 tablesEmpty 0 8 0xff 0 0 c3wB rfl (by decide) rfl rfl rfl,
   c3_response_phases.2.2.1 tablesEmpty 0 8 0xff 0xff 0 c3wC rfl rfl rfl rfl rfl,
   c3_response_phases.2.2.2.1 tablesEmpty 0 8 0xff 0xff 0 0 c3wD rfl rfl rfl,
   c3_response_phases.2.2.2.2.1 tablesEmpty 0 8 0xff 0xff 0 c3wE rfl rfl rfl rfl rfl,
   c3_response_phases.2.2.2.2.2.1 tablesEmpty 0 8 0xff 0xff 2 c3wF rfl rfl (by decide) (by decide),
   c3_response_phases.2.2.2.2.2.2.1 tablesEmpty 0 8 0xff 0 0xc0 8 0 0 0 8 16 24 32 c3wG
     rfl rfl rfl rfl,
   c3_response_phases.2.2.2.2.2.2.2.1 tablesEmpty 0 8 0xff 0xff 0 c3wH rfl rfl rfl rfl rfl,
   c3_response_phases.2.2.2.2.2.2.2.2.1 tablesEmpty 0 8 0xff 0xff 2 c3wI rfl rfl
     (by decide) (by decide),
   c3_response_phases.2.2.2.2.2.2.2.2.2 tablesEmpty 0 8 0xff 0 1 0 1 0xaa 0 8 16 24 32 c3wJ
     rfl rfl rfl rfl⟩

/-! ### C4 -/

/-- C4: in the data-response phase, a byte whose masked value fails
`(value & 0x11) == 0x01` leaves the decoder unchanged (apart from the
current-packet sample bookkeeping) so the phase is retried on the next byte;
masked value `0x05` emits "Data accepted", `0x0B` "Data rejected (CRC
error)", `0x0D` "Data rejected (write error)" (shown with the full
annotation list, including the fixed-position bits and the CMD24
"Data Response" annotation); and any byte passing the mask after a write
command (`is_cmd24`) transitions the machine to the busy-wait phase. -/
theorem c4_data_response :
    (∀ (T : Tables) (a b mo mi : Nat) (s : DecState), s.state = "DATA RESPONSE" →
        ¬ ((mi &&& 0x1f) &&& 0x11 = 0x01) →
        decode T a b (.data mo mi) s = some { s with ss := a, es := b }) ∧
    (∀ (T : Tables) (a b mo mi t : Nat) (s : DecState), s.state = "DATA RESPONSE" →
        s.miso_bits = mkBits t mi → mi &&& 0x1f = 0x05 → s.is_cmd24 = true →
        (decode T a b (.data mo mi) s).map (fun u => (u.state, u.busy_first_byte, u.out)) =
          some ("WAIT WHILE CARD BUSY", true, s.out ++
            [⟨t, t + 3, Ann.BIT, ["Don" ++ sqc ++ "t care"]⟩,
             ⟨t + 3, t + 4, Ann.BIT, ["Always 0"]⟩,
             ⟨t + 4, t + 7, Ann.BIT, ["Data accepted"]⟩,
             ⟨t + 7, t + 8, Ann.BIT, ["Always 1"]⟩,
             ⟨a, b, Ann.CMD 24, ["Data Response"]⟩])) ∧
    (∀ (T : Tables) (a b mo mi t : Nat) (s : DecState), s.state = "DATA RESPONSE" →
        s.miso_bits = mkBits t mi → mi &&& 0x1f = 0x0b → s.is_cmd24 = true →
        (decode T a b (.data mo mi) s).map (fun u => (u.state, u.busy_first_byte, u.out)) =
          some ("WAIT WHILE CARD BUSY", true, s.out ++
            [⟨t, t + 3, Ann.BIT, ["Don" ++ sqc ++ "t care"]⟩,
             ⟨t + 3, t + 4, Ann.BIT, ["Always 0"]⟩,
             ⟨t + 4, t + 7, Ann.BIT, ["Data rejected (CRC error)"]⟩,
             ⟨t + 7, t + 8, Ann.BIT, ["Always 1"]⟩,
             ⟨a, b, Ann.CMD 24, ["Data Response"]⟩])) ∧
    (∀ (T : Tables) (a b mo mi t : Nat) (s : DecState), s.state = "DATA RESPONSE" →
        s.miso_bits = mkBits t mi → mi &&& 0x1f = 0x0d → s.is_cmd24 = true →
        (decode T a b (.data mo mi) s).map (fun u => (u.state, u.busy_first_byte, u.out)) =
          some ("WAIT WHILE CARD BUSY", true, s.out ++
            [⟨t, t + 3, Ann.BIT, ["Don" ++ sqc ++ "t care"]⟩,
             ⟨t + 3, t + 4, Ann.BIT, ["Always 0"]⟩,
             ⟨t + 4, t + 7, Ann.BIT, ["Data rejected (write error)"]⟩,
             ⟨t + 7, t + 8, Ann.BIT, ["Always 1"]⟩,
             ⟨a, b, Ann.CMD 24, ["Data Response"]⟩])) ∧
    (∀ (T : Tables) (a b mo mi t : Nat) (s : DecState), s.state = "DATA RESPONSE" →
        s.miso_bits = mkBits t mi → (mi &&& 0x1f) &&& 0x11 = 0x01 → s.is_cmd24 = true →
        (decode T a b (.data mo mi) s).map (fun u => u.state) =
          some "WAIT WHILE CARD BUSY") := by
  refine ⟨?_, ?_, ?_, ?_, ?_⟩
  · intro T a b mo mi s hs hv
    simp [decode, decode_data, hs, handle_data_response, hv]
  · intro T a b mo mi t s hs hmb hv h24
    simp [decode, decode_data, hs, handle_data_response, hv, hmb, mkBits, dr_tail, h24, DecState.put,
          (by decide : (5 : Nat) &&& 17 = 1)]
  · intro T a b mo mi t s hs hmb hv h24
    simp [decode, decode_data, hs, handle_data_response, hv, hmb, mkBits, dr_tail, h24, DecState.put,
          (by decide : (11 : Nat) &&& 17 = 1)]
  · intro T a b mo mi t s hs hmb hv h24
    simp [decode, decode_data, hs, handle_data_response, hv, hmb, mkBits, dr_tail, h24, DecState.put,
          (by decide : (13 : Nat) &&& 17 = 1)]
  · intro T a b mo mi t s hs hmb hv h24
    simp [decode, decode_data, hs, handle_data_response, hv, hmb, mkBits]
    split
    · simp [dr_tail, h24, DecState.put]
    · simp [dr_tail, h24, DecState.put]

/-- A reachable-shaped data-response state used by the C4 witness (a CMD24
write whose block completed; the BITS packet of the incoming byte stored). -/
def c4w (mi : Nat) : DecState :=
  { resetState with state := "DATA RESPONSE", is_cmd24 := true, miso_bits := mkBits 0 mi }

/-- Witness for C4, one instance per conjunct. -/
theorem c4_data_response_witness :
    decode tablesEmpty 0 8 (.data 0xff 0xff) (c4w 0xff) =
      some { c4w 0xff with ss := 0, es := 8 } ∧
    (decode tablesEmpty 0 8 (.data 0xff 0x05) (c4w 0x05)).map
        (fun u => (u.state, u.busy_first_byte, u.out)) =
      some ("WAIT WHILE CARD BUSY", true,
        [⟨0, 3, Ann.BIT, ["Don" ++ sqc ++ "t care"]⟩,
         ⟨3, 4, Ann.BIT, ["Always 0"]⟩,
         ⟨4, 7, Ann.BIT, ["Data accepted"]⟩,
         ⟨7, 8, Ann.BIT, ["Always 1"]⟩,
         ⟨0, 8, Ann.CMD 24, ["Data Response"]⟩]) ∧
    (decode tablesEmpty 0 8 (.data 0xff 0x0b) (c4w 0x0b)).map
        (fun u => (u.state, u.busy_first_byte, u.out)) =
      some ("WAIT WHILE CARD BUSY", true,
        [⟨0, 3, Ann.BIT, ["Don" ++ sqc ++ "t care"]⟩,
         ⟨3, 4, Ann.BIT, ["Always 0"]⟩,
         ⟨4, 7, Ann.BIT, ["Data rejected (CRC error)"]⟩,
         ⟨7, 8, Ann.BIT, ["Always 1"]⟩,
         ⟨0, 8, Ann.CMD 24, ["Data Response"]⟩]) ∧
    (decode tablesEmpty 0 8 (.data 0xff 0x0d) (c4w 0x0d)).map
        (fun u => (u.state, u.busy_first_byte, u.out)) =
      some ("WAIT WHILE CARD BUSY", true,
        [⟨0, 3, Ann.BIT, ["Don" ++ sqc ++ "t care"]⟩,
         ⟨3, 4, Ann.BIT, ["Always 0"]⟩,
         ⟨4, 7, Ann.BIT, ["Data rejected (write error)"]⟩,
         ⟨7, 8, Ann.BIT, ["Always 1"]⟩,
         ⟨0, 8, Ann.CMD 24, ["Data Response"]⟩]) ∧
    (decode tablesEmpty 0 8 (.data 0xff 0x07) (c4w 0x07)).map (fun u => u.state) =
      some "WAIT WHILE CARD BUSY" :=
  ⟨c4_data_response.1 tablesEmpty 0 8 0xff 0xff (c4w 0xff) rfl (by decide),
   c4_data_response.2.1 tablesEmpty 0 8 0xff 0x05 0 (c4w 0x05) rfl rfl (by decide) rfl,
   c4_data_response.2.2.1 tablesEmpty 0 8 0xff 0x0b 0 (c4w 0x0b) rfl rfl (by decide) rfl,
   c4_data_response.2.2.2.1 tablesEmpty 0 8 0xff 0x0d 0 (c4w 0x0d) rfl rfl (by decide) rfl,
   c4_data_response.2.2.2.2 tablesEmpty 0 8 0xff 0x07 0 (c4w 0x07) rfl rfl (by decide) rfl⟩

/-! ### C5 -/

/-- C5: `handle_cmd16` sets the block length to the CMD16 argument (512 for
argument `0x00000200`); in a CMD17 or CMD24 data-block phase with the 0xFE
start sentinel already seen, the first payload byte installs the 512-byte
default when no block length was set (`blocklen = 0`); bytes before the
`blocklen`-th accumulate without emitting anything; and the `blocklen`-th
payload byte emits the block-data annotation whose payload is exactly the
`blocklen` bytes accumulated since the sentinel. -/
theorem c5_blocklen :
    (∀ (T : Tables) (a b mo mi : Nat) (s : DecState), s.state = "HANDLE CMD16" →
        s.is_acmd = false →
        (decode T a b (.data mo mi) s).map (fun u => u.blocklen) = some s.arg) ∧
    (∀ (T : Tables) (a b mo mi : Nat) (s : DecState),
        s.state = "HANDLE DATA BLOCK CMD17" → s.cmd17_start_token_found = true →
        s.read_buf = [] → s.blocklen = 0 →
        (decode T a b (.data mo mi) s).map
            (fun u => (u.state, u.blocklen, u.read_buf.length)) =
          some ("HANDLE DATA BLOCK CMD17", 512, 1)) ∧
    (∀ (T : Tables) (a b mo mi k : Nat) (s : DecState),
        s.state = "HANDLE DATA BLOCK CMD17" → s.cmd17_start_token_found = true →
        s.read_buf.length = k → 1 ≤ k → k + 1 < s.blocklen →
        (decode T a b (.data mo mi) s).map (fun u => (u.state, u.read_buf.length, u.out)) =
          some ("HANDLE DATA BLOCK CMD17", k + 1, s.out)) ∧
    (∀ (T : Tables) (a b mo mi : Nat) (s : DecState),
        s.state = "HANDLE DATA BLOCK CMD17" → s.cmd17_start_token_found = true →
        1 ≤ s.read_buf.length → s.read_buf.length + 1 = s.blocklen →
        (decode T a b (.data mo mi) s).map (fun u => (u.state, u.read_buf.length, u.out)) =
          some ("HANDLE DATA BLOCK CMD17", s.blocklen,
            s.out ++ [⟨s.ss_data, b, Ann.CMD 17,
              ["Block data: " ++ pyListRepr (s.read_buf ++ [mi])]⟩])) ∧
    (∀ (T : Tables) (a b mo mi : Nat) (s : DecState),
        s.state = "HANDLE DATA BLOCK CMD24" → s.cmd24_start_token_found = true →
        s.read_buf = [] → s.blocklen = 0 →
        (decode T a b (.data mo mi) s).map
            (fun u => (u.state, u.blocklen, u.read_buf.length)) =
          some ("HANDLE DATA BLOCK CMD24", 512, 1)) ∧
    (∀ (T : Tables) (a b mo mi : Nat) (s : DecState),
        s.state = "HANDLE DATA BLOCK CMD24" → s.cmd24_start_token_found = true →
        1 ≤ s.read_buf.length → s.read_buf.length + 1 = s.blocklen →
        (decode T a b (.data mo mi) s).map (fun u => (u.state, u.read_buf, u.out)) =
          some ("DATA RESPONSE", [],
            s.out ++ [⟨s.ss_data, b, Ann.CMD 24,
              ["Block data: " ++ pyListRepr (s.read_buf ++ [mo])]⟩])) := by
  refine ⟨?_, ?_, ?_, ?_, ?_, ?_⟩
  · intro T a b mo mi s hs ha
    simp [decode, decode_data, hs, ha, handlerFor, handle_cmd16, putc, putx, DecState.put]
  · intro T a b mo mi s hs hf hrb hbl
    simp [decode, decode_data, hs, handle_data_cmd17, hf, hrb, hbl, dataFirstByte, pushRead]
  · intro T a b mo mi k s hs hf hk h1 hlt
    simp [decode, decode_data, hs, handle_data_cmd17, hf, hk, hlt, pushRead, (show ¬ (k = 0) by omega)]
  · intro T a b mo mi s hs hf h1 hk
    simp [decode, decode_data, hs, handle_data_cmd17, hf, DecState.put, pushRead, cmd17_block,
          (show ¬ (s.read_buf.length = 0) by omega),
          (show ¬ (s.read_buf.length + 1 < s.blocklen) by omega), hk]
  · intro T a b mo mi s hs hf hrb hbl
    simp [decode, decode_data, hs, handle_data_cmd24, hf, hrb, hbl, dataFirstByte, pushRead]
  · intro T a b mo mi s hs hf h1 hk
    simp [decode, decode_data, hs, handle_data_cmd24, hf, DecState.put, pushRead, cmd24_block,
          (show ¬ (s.read_buf.length = 0) by omega),
          (show ¬ (s.read_buf.length + 1 < s.blocklen) by omega), hk]

/-- States used by the C5 witness. -/
def c5w1 : DecState := { resetState with state := "HANDLE CMD16", arg := 0x200 }

def c5w2 : DecState :=
  { resetState with state := "HANDLE DATA BLOCK CMD17", cmd17_start_token_found := true }

def c5w3 : DecState :=
  { c5w2 with blocklen := 512, read_buf := List.replicate 5 0xaa }

def c5w4 : DecState :=
  { c5w2 with blocklen := 512, read_buf := List.replicate 511 0xaa }

def c5w5 : DecState :=
  { resetState with state := "HANDLE DATA BLOCK CMD24", cmd24_start_token_found := true }

def c5w6 : DecState :=
  { c5w5 with blocklen := 512, read_buf := List.replicate 511 0xcc }

set_option maxRecDepth 20000 in
/-- Witness for C5: a 512-byte block length from CMD16 argument `0x200`, the
512-byte default, and completion after exactly 512 payload bytes. -/
theorem c5_blocklen_witness :
    (decode tablesEmpty 0 8 (.data 0xff 0xff) c5w1).map (fun u => u.blocklen) =
      some 0x200 ∧
    (decode tablesEmpty 0 8 (.data 0xff 0xaa) c5w2).map
        (fun u => (u.state, u.blocklen, u.read_buf.length)) =
      some ("HANDLE DATA BLOCK CMD17", 512, 1) ∧
    (decode tablesEmpty 0 8 (.data 0xff 0xaa) c5w3).map
        (fun u => (u.state, u.read_buf.length, u.out)) =
      some ("HANDLE DATA BLOCK CMD17", 6, c5w3.out) ∧
    (decode tablesEmpty 0 8 (.data 0xff 0xbb) c5w4).map
        (fun u => (u.state, u.read_buf.length, u.out)) =
      some ("HANDLE DATA BLOCK CMD17", c5w4.blocklen,
        c5w4.out ++ [⟨c5w4.ss_data, 8, Ann.CMD 17,
          ["Block data: " ++ pyListRepr (c5w4.read_buf ++ [0xbb])]⟩]) ∧
    (decode tablesEmpty 0 8 (.data 0xaa 0xff) c5w5).map
        (fun u => (u.state, u.blocklen, u.read_buf.length)) =
      some ("HANDLE DATA BLOCK CMD24", 512, 1) ∧
    (decode tablesEmpty 0 8 (.data 0xcc 0xff) c5w6).map
        (fun u => (u.state, u.read_buf, u.out)) =
      some ("DATA RESPONSE", [],
        c5w6.out ++ [⟨c5w6.ss_data, 8, Ann.CMD 24,
          ["Block data: " ++ pyListRepr (c5w6.read_buf ++ [0xcc])]⟩]) :=
  ⟨c5_blocklen.1 tablesEmpty 0 8 0xff 0xff c5w1 rfl rfl,
   c5_blocklen.2.1 tablesEmpty 0 8 0xff 0xaa c5w2 rfl rfl rfl rfl,
   c5_blocklen.2.2.1 tablesEmpty 0 8 0xff 0xaa 5 c5w3 rfl rfl rfl (by decide) (by decide),
   c5_blocklen.2.2.2.1 tablesEmpty 0 8 0xff 0xbb c5w4 rfl rfl (by decide) (by decide),
   c5_blocklen.2.2.2.2.1 tablesEmpty 0 8 0xaa 0xff c5w5 rfl rfl rfl rfl,
   c5_blocklen.2.2.2.2.2 tablesEmpty 0 8 0xcc 0xff c5w6 rfl rfl (by decide) (by decide)⟩

/-! ### C7 -/

/-- A run of all-zero MISO bytes in the busy-wait phase, one timed DATA
packet per `(ss, es)` pair. -/
def zeroRun (tps : List (Nat × Nat)) : List TimedEvent :=
  tps.map (fun p => ⟨p.1, p.2, .data 0xff 0⟩)

/-- Cumulative effect of `wait_while_busy` on a run of zero bytes once
`busy_first_byte` is already false: each byte refreshes `ss`/`es` and
extends `es_busy`. -/
def busyZeros (s : DecState) : List (Nat × Nat) → DecState
  | [] => s
  | (p, q) :: r => busyZeros { s with ss := p, es := q, es_busy := q } r

lemma decodeList_append (T : Tables) (l1 l2 : List TimedEvent) :
    ∀ s, decodeList T s (l1 ++ l2) =
      (decodeList T s l1).bind (fun u => decodeList T u l2) := by
  induction l1 with
  | nil => intro s; simp [decodeList]
  | cons e r ih =>
    intro s
    simp only [List.cons_append, decodeList]
    cases decode T e.ss e.es e.ev s with
    | none => simp
    | some s1 => simp [ih]

lemma busy_zero_step (T : Tables) (p q : Nat) (s : DecState)
    (hs : s.state = "WAIT WHILE CARD BUSY") (hb : s.busy_first_byte = false) :
    decode T p q (.data 0xff 0) s = some { s with ss := p, es := q, es_busy := q } := by
  simp [decode, decode_data, hs, wait_while_busy, hb]

lemma busy_zeros_run (T : Tables) :
    ∀ (tps : List (Nat × Nat)) (s : DecState), s.state = "WAIT WHILE CARD BUSY" →
      s.busy_first_byte = false →
      decodeList T s (zeroRun tps) = some (busyZeros s tps) := by
  intro tps
  induction tps with
  | nil => intro s _ _; rfl
  | cons p r ih =>
    obtain ⟨pa, pb⟩ := p
    intro s hs hb
    simp only [zeroRun, List.map_cons, decodeList]
    rw [busy_zero_step T pa pb s hs hb]
    exact ih { s with ss := pa, es := pb, es_busy := pb } hs hb

lemma busyZeros_proj : ∀ (tps : List (Nat × Nat)) (s : DecState),
    (busyZeros s tps).state = s.state ∧ (busyZeros s tps).busy_first_byte = s.busy_first_byte ∧
    (busyZeros s tps).is_cmd24 = s.is_cmd24 ∧ (busyZeros s tps).out = s.out ∧
    (busyZeros s tps).ss_busy = s.ss_busy := by
  intro tps
  induction tps with
  | nil => intro s; exact ⟨rfl, rfl, rfl, rfl, rfl⟩
  | cons p r ih => obtain ⟨pa, pb⟩ := p; intro s; exact ih _

lemma busyZeros_es_busy : ∀ (tps : List (Nat × Nat)) (s : DecState) (h : tps ≠ []),
    (busyZeros s tps).es_busy = (tps.getLast h).2 := by
  intro tps
  induction tps with
  | nil => intro s h; exact absurd rfl h
  | cons p r ih =>
    obtain ⟨pa, pb⟩ := p
    intro s h
    cases r with
    | nil => rfl
    | cons p2 r2 =>
      rw [show busyZeros s ((pa, pb) :: p2 :: r2) =
        busyZeros { s with ss := pa, es := pb, es_busy := pb } (p2 :: r2) from rfl]
      rw [ih _ (by simp)]
      rfl

lemma busy_nonzero_step (T : Tables) (a b mo v : Nat) (s : DecState)
    (hs : s.state = "WAIT WHILE CARD BUSY") (h24 : s.is_cmd24 = true) (hv : ¬ (v = 0)) :
    decode T a b (.data mo v) s =
      some { s with ss := a, es := b, is_cmd24 := false, state := "IDLE",
                    out := s.out ++ [⟨s.ss_busy, s.es_busy, Ann.CMD 24, ["Card is busy"]⟩] } := by
  simp [decode, decode_data, hs, wait_while_busy, hv, h24, DecState.put]

/-- A busy-wait state as `handle_data_response` enters it after a CMD24
write (`is_cmd24` set, `busy_first_byte` set, `es_busy` still at its reset
value 0). -/
def c7_state : DecState :=
  { resetState with state := "WAIT WHILE CARD BUSY", is_cmd24 := true,
                    busy_first_byte := true }

/-- C7, counterexample.  The claim says the "Card is busy" annotation spans
from the start of the first zero byte to the end of the last zero byte of
the run.  For a run of exactly one zero byte (samples 100..108) followed by
a non-zero byte, the emitted annotation is `(100, 0)`, not `(100, 108)`:
the first zero byte only records `ss_busy` (`busy_first_byte` handling) and
`es_busy` is never updated, so the stale reset value 0 is used as the end of
the interval. -/
theorem c7_counterexample :
    ¬ ((decodeList tablesEmpty c7_state
          [⟨100, 108, .data 0xff 0⟩, ⟨108, 116, .data 0xff 1⟩]).map
            (fun u => u.out.map (fun x => (x.ss, x.es))) = some [(100, 108)]) ∧
    (decodeList tablesEmpty c7_state
        [⟨100, 108, .data 0xff 0⟩, ⟨108, 116, .data 0xff 1⟩]).map
          (fun u => (u.state, u.out)) =
      some ("IDLE", [⟨100, 0, Ann.CMD 24, ["Card is busy"]⟩]) :=
  ⟨by decide, rfl⟩

/-- C7, amended: in the busy-wait phase of a CMD24 write, for every run of
TWO or more consecutive zero bytes followed by a non-zero byte, the first
non-zero byte ends the run, exactly one "Card is busy" annotation is
emitted, spanning from the start of the first zero byte to the end of the
last zero byte, and the machine transitions to IDLE (clearing `is_cmd24`).
For a run of exactly one zero byte the code emits the annotation with the
stale previous `es_busy` as its end (see the counterexample): the claimed
span only holds from the second zero byte onward, because the first zero
byte sets `ss_busy` without touching `es_busy`. -/
theorem c7_busy_run (T : Tables) (p1 q1 a b v : Nat) (tps : List (Nat × Nat)) (s : DecState)
    (hst : s.state = "WAIT WHILE CARD BUSY") (hfb : s.busy_first_byte = true)
    (h24 : s.is_cmd24 = true) (hne : tps ≠ []) (hv : ¬ (v = 0)) :
    (decodeList T s (⟨p1, q1, .data 0xff 0⟩ :: (zeroRun tps ++ [⟨a, b, .data 0xff v⟩]))).map
        (fun u => (u.state, u.is_cmd24, u.out)) =
      some ("IDLE", false,
        s.out ++ [⟨p1, (tps.getLast hne).2, Ann.CMD 24, ["Card is busy"]⟩]) := by
  have hstep1 : decode T p1 q1 (.data 0xff 0) s =
      some { s with ss := p1, es := q1, ss_busy := p1, busy_first_byte := false } := by
    simp [decode, decode_data, hst, wait_while_busy, hfb]
  simp only [decodeList, hstep1]
  rw [decodeList_append]
  rw [busy_zeros_run T tps { s with ss := p1, es := q1, ss_busy := p1, busy_first_byte := false }
      hst rfl]
  simp only [Option.some_bind]
  obtain ⟨hstate, hbfb, hcmd24, hout, hssb⟩ :=
    busyZeros_proj tps { s with ss := p1, es := q1, ss_busy := p1, busy_first_byte := false }
  simp only [decodeList]
  rw [busy_nonzero_step T a b 0xff v _ (by rw [hstate]; exact hst) (by rw [hcmd24]; exact h24) hv]
  simp only [decodeList, Option.map_some']
  rw [hout, hssb, busyZeros_es_busy tps _ hne]

/-- Witness for C7: a run of two zero bytes (100..108, 108..116) then the
non-zero byte 1; the single annotation spans 100..116. -/
theorem c7_busy_run_witness :
    (decodeList tablesEmpty c7_state
        (⟨100, 108, .data 0xff 0⟩ :: (zeroRun [(108, 116)] ++ [⟨116, 124, .data 0xff 1⟩]))).map
          (fun u => (u.state, u.is_cmd24, u.out)) =
      some ("IDLE", false, [⟨100, 116, Ann.CMD 24, ["Card is busy"]⟩]) :=
  c7_busy_run tablesEmpty 100 108 116 124 1 [(108, 116)] c7_state
    rfl rfl rfl (by decide) (by decide)

/-! ### C10 -/

/-- The two state strings of the CMD24 write path guarded by the invariant:
`HANDLE DATA BLOCK CMD24` is entered only by `r1_tail` under `is_cmd24`, and
`DATA RESPONSE` only by `cmd24_block`. -/
def prot (x : String) : Prop := x = "HANDLE DATA BLOCK CMD24" ∨ x = "DATA RESPONSE"

instance (x : String) : Decidable (prot x) := by unfold prot; infer_instance

@[simp] lemma put_state (s : DecState) (a b c : Nat) (t : List String) :
    (DecState.put s a b c t).state = s.state := rfl

@[simp] lemma put_is_cmd24 (s : DecState) (a b c : Nat) (t : List String) :
    (DecState.put s a b c t).is_cmd24 = s.is_cmd24 := rfl

@[simp] lemma putx_state (s : DecState) (c : Nat) (t : List String) :
    (putx s c t).state = s.state := rfl

@[simp] lemma putx_is_cmd24 (s : DecState) (c : Nat) (t : List String) :
    (putx s c t).is_cmd24 = s.is_cmd24 := rfl

@[simp] lemma putb_state (s : DecState) (c : Nat) (t : List String) :
    (putb s c t).state = s.state := rfl

@[simp] lemma putb_is_cmd24 (s : DecState) (c : Nat) (t : List String) :
    (putb s c t).is_cmd24 = s.is_cmd24 := rfl

@[simp] lemma putc_state (s : DecState) (c : Nat) (d : String) :
    (putc s c d).state = s.state := rfl

@[simp] lemma putc_is_cmd24 (s : DecState) (c : Nat) (d : String) :
    (putc s c d).is_cmd24 = s.is_cmd24 := rfl

@[simp] lemma putb_at_state (s : DecState) (x y c : Nat) (t : List String) :
    (putb_at s x y c t).state = s.state := rfl

@[simp] lemma putb_at_is_cmd24 (s : DecState) (x y c : Nat) (t : List String) :
    (putb_at s x y c t).is_cmd24 = s.is_cmd24 := rfl

@[simp] lemma pushRead_state (s : DecState) (b : Nat) : (pushRead s b).state = s.state := rfl

@[simp] lemma pushRead_is_cmd24 (s : DecState) (b : Nat) :
    (pushRead s b).is_cmd24 = s.is_cmd24 := rfl

@[simp] lemma setState_state (s : DecState) (st : String) : (setState s st).state = st := rfl

@[simp] lemma setState_is_cmd24 (s : DecState) (st : String) :
    (setState s st).is_cmd24 = s.is_cmd24 := rfl

@[simp] lemma setCmdRange_state (s : DecState) (x y : Nat) :
    (setCmdRange s x y).state = s.state := rfl

@[simp] lemma setCmdRange_is_cmd24 (s : DecState) (x y : Nat) :
    (setCmdRange s x y).is_cmd24 = s.is_cmd24 := rfl

@[simp] lemma endResp2_state (s : DecState) : (endResp2 s).state = "IDLE" := rfl

@[simp] lemma endResp2_is_cmd24 (s : DecState) : (endResp2 s).is_cmd24 = s.is_cmd24 := rfl

@[simp] lemma endResp5_state (s : DecState) : (endResp5 s).state = "IDLE" := rfl

@[simp] lemma endResp5_is_cmd24 (s : DecState) : (endResp5 s).is_cmd24 = s.is_cmd24 := rfl

@[simp] lemma r3_high_full_state (hi : R3High) (s : DecState) :
    (r3_high_full hi s).state = s.state := by
  simp only [r3_high_full, putb_at_state]

@[simp] lemma r3_high_full_is_cmd24 (hi : R3High) (s : DecState) :
    (r3_high_full hi s).is_cmd24 = s.is_cmd24 := by
  simp only [r3_high_full, putb_at_is_cmd24]

@[simp] lemma r3_low_full_state (lo : R3Low) (s : DecState) :
    (r3_low_full lo s).state = s.state := by
  simp only [r3_low_full, putb_at_state]

@[simp] lemma r3_low_full_is_cmd24 (lo : R3Low) (s : DecState) :
    (r3_low_full lo s).is_cmd24 = s.is_cmd24 := by
  simp only [r3_low_full, putb_at_is_cmd24]

@[simp] lemma r2_full_state (res r1v st : Nat) (m : Bits8) (s : DecState) :
    (r2_full res r1v st m s).state = "IDLE" := by
  simp only [r2_full, endResp2_state]

@[simp] lemma r2_full_is_cmd24 (res r1v st : Nat) (m : Bits8) (s : DecState) :
    (r2_full res r1v st m s).is_cmd24 = s.is_cmd24 := by
  simp only [r2_full, endResp2_is_cmd24, putb_at_is_cmd24, putx_is_cmd24]

@[simp] lemma r7_full_state (r1v pat : Nat) (v : String) (b : R7Bits) (s : DecState) :
    (r7_full r1v pat v b s).state = "IDLE" := by
  simp only [r7_full, endResp5_state]

@[simp] lemma r7_full_is_cmd24 (r1v pat : Nat) (v : String) (b : R7Bits) (s : DecState) :
    (r7_full r1v pat v b s).is_cmd24 = s.is_cmd24 := by
  simp only [r7_full, endResp5_is_cmd24, putb_at_is_cmd24, putx_is_cmd24]

@[simp] lemma putx_is_cmd17 (s : DecState) (c : Nat) (t : List String) :
    (putx s c t).is_cmd17 = s.is_cmd17 := rfl

@[simp] lemma putb_at_is_cmd17 (s : DecState) (x y c : Nat) (t : List String) :
    (putb_at s x y c t).is_cmd17 = s.is_cmd17 := rfl

@[simp] lemma setCmdRange_is_cmd17 (s : DecState) (x y : Nat) :
    (setCmdRange s x y).is_cmd17 = s.is_cmd17 := rfl

@[simp] lemma setState_is_cmd17 (s : DecState) (st : String) :
    (setState s st).is_cmd17 = s.is_cmd17 := rfl

@[simp] lemma r1_chain_is_cmd24 (res : Nat) (m : Bits8) (s : DecState) :
    (r1_chain res m s).is_cmd24 = s.is_cmd24 := by
  simp only [r1_chain, putb_at_is_cmd24, putx_is_cmd24, setCmdRange_is_cmd24]

@[simp] lemma r1_chain_is_cmd17 (res : Nat) (m : Bits8) (s : DecState) :
    (r1_chain res m s).is_cmd17 = s.is_cmd17 := by
  simp only [r1_chain, putb_at_is_cmd17, putx_is_cmd17, setCmdRange_is_cmd17]

@[simp] lemma r1_chain_state (res : Nat) (m : Bits8) (s : DecState) :
    (r1_chain res m s).state = s.state := by
  simp only [r1_chain, putb_at_state, putx_state, setCmdRange_state]

lemma r1_tail_is_cmd24 (t : DecState) : (r1_tail t).is_cmd24 = t.is_cmd24 := by
  simp only [r1_tail]
  split <;> split <;> simp_all

lemma r1_tail_state (t : DecState) :
    (r1_tail t).state = t.state ∨
    (r1_tail t).state = "HANDLE DATA BLOCK CMD17" ∨
    ((r1_tail t).state = "HANDLE DATA BLOCK CMD24" ∧ t.is_cmd24 = true) := by
  simp only [r1_tail]
  split <;> split <;> simp_all

lemma r1_full_is_cmd24 (res : Nat) (m : Bits8) (s : DecState) :
    (r1_full res m s).is_cmd24 = s.is_cmd24 := by
  rw [r1_full, r1_tail_is_cmd24, r1_chain_is_cmd24]

lemma r1_full_state (res : Nat) (m : Bits8) (s : DecState) :
    (r1_full res m s).state = s.state ∨
    (r1_full res m s).state = "HANDLE DATA BLOCK CMD17" ∨
    ((r1_full res m s).state = "HANDLE DATA BLOCK CMD24" ∧ s.is_cmd24 = true) := by
  rw [r1_full]
  rcases r1_tail_state (r1_chain res m s) with h | h | ⟨h, h24⟩
  · left; rw [h, r1_chain_state]
  · right; left; exact h
  · right; right; rw [r1_chain_is_cmd24] at h24; exact ⟨h, h24⟩

lemma r1_prot (res : Nat) (s s1 : DecState) (h : handle_response_r1 res s = some s1) :
    s1.is_cmd24 = s.is_cmd24 ∧ (prot s1.state → s.is_cmd24 = true ∨ prot s.state) := by
  simp only [handle_response_r1] at h
  split at h
  · exact absurd h (by simp)
  · rw [Option.some_inj] at h
    subst h
    refine ⟨r1_full_is_cmd24 _ _ _, fun hp => ?_⟩
    rcases r1_full_state res _ s with heq | heq | ⟨heq, h24⟩
    · right; rw [← heq]; exact hp
    · rw [heq] at hp; exact absurd hp (by decide)
    · exact Or.inl h24

/-- The two protected state strings of the CMD24 write path: the block
phase entered only by `r1_tail` under `is_cmd24`, and the data-response
phase entered only by `cmd24_block`. -/
def DRInv (s : DecState) : Prop := prot s.state → s.is_cmd24 = true

lemma prot_not_hcmd (x : String) (h : prot x) : pyStartsWith x "HANDLE CMD" = false := by
  rcases h with rfl | rfl <;> rfl

lemma nprot_idle : ¬ prot "IDLE" := by decide

lemma nprot_gct : ¬ prot "GET COMMAND TOKEN" := by decide

lemma nprot_gr1 : ¬ prot "GET RESPONSE R1" := by decide

lemma nprot_gr2 : ¬ prot "GET RESPONSE R2" := by decide

lemma nprot_gr3 : ¬ prot "GET RESPONSE R3" := by decide

lemma nprot_gr7 : ¬ prot "GET RESPONSE R7" := by decide

lemma nprot_hdb17 : ¬ prot "HANDLE DATA BLOCK CMD17" := by decide

lemma nprot_busy : ¬ prot "WAIT WHILE CARD BUSY" := by decide

lemma hct_finish_prot (T : Tables) (cmd t0 t1 t2 t3 t4 t5 : Nat) (rest : List Nat)
    (s s1 : DecState) (h : hct_finish T cmd t0 t1 t2 t3 t4 t5 rest s = some s1) :
    ¬ prot s1.state := by
  simp only [hct_finish] at h
  split at h
  · rename_i hmem
    rw [Option.some_inj] at h
    subst h
    simp only [List.mem_cons, List.mem_singleton, List.not_mem_nil, or_false] at hmem
    intro hp
    simp only [prot] at hp
    rcases hmem with h0 | h0 | h0 | h0 | h0 | h0 | h0 | h0 | h0 | h0 | h0 | h0 | h0 <;>
      rw [h0] at hp <;> revert hp <;> decide
  · split at h
    · rw [Option.some_inj] at h
      subst h
      simp [prot, putx, DecState.put, setState]
    · exact absurd h (by simp)

lemma hct_full_prot (T : Tables) (s : DecState) (tB : TokBits)
    (t0 t1 t2 t3 t4 t5 : Nat) (rest : List Nat) (s1 : DecState)
    (h : hct_full T s tB t0 t1 t2 t3 t4 t5 rest = some s1) : ¬ prot s1.state :=
  hct_finish_prot T (t0 &&& 0x3f) t0 t1 t2 t3 t4 t5 rest _ s1 h

lemma hct_prot (T : Tables) (mo : Nat) (s s1 : DecState)
    (h : handle_command_token T mo s = some s1) : prot s1.state → prot s.state := by
  simp only [handle_command_token] at h
  split at h
  all_goals
    split at h
    · rw [Option.some_inj] at h
      subst h
      exact fun hp => hp
    · split at h
      · exact absurd h (by simp)
      · split at h
        · intro hp
          exact absurd hp (hct_full_prot _ _ _ _ _ _ _ _ _ _ _ h)
        · exact absurd h (by simp)

@[simp] lemma handle_cmd0_state (s : DecState) :
    (handle_cmd0 s).state = "GET RESPONSE R1" := rfl

@[simp] lemma handle_cmd8_state (s : DecState) :
    (handle_cmd8 s).state = "GET RESPONSE R7" := rfl

@[simp] lemma handle_cmd13_state (s : DecState) :
    (handle_cmd13 s).state = "GET RESPONSE R2" := rfl

@[simp] lemma handle_cmd16_state (s : DecState) :
    (handle_cmd16 s).state = "GET RESPONSE R1" := rfl

@[simp] lemma handle_cmd17_state (s : DecState) :
    (handle_cmd17 s).state = "GET RESPONSE R1" := rfl

@[simp] lemma handle_cmd24_state (s : DecState) :
    (handle_cmd24 s).state = "GET RESPONSE R1" := rfl

@[simp] lemma handle_cmd49_state (s : DecState) :
    (handle_cmd49 s).state = "GET RESPONSE R1" := rfl

@[simp] lemma handle_cmd55_state (s : DecState) :
    (handle_cmd55 s).state = "GET RESPONSE R1" := rfl

@[simp] lemma handle_cmd58_state (s : DecState) :
    (handle_cmd58 s).state = "GET RESPONSE R3" := rfl

@[simp] lemma handle_cmd59_state (s : DecState) :
    (handle_cmd59 s).state = "GET RESPONSE R1" := rfl

@[simp] lemma handle_cmd999_state (s : DecState) :
    (handle_cmd999 s).state = "GET RESPONSE R1" := rfl

@[simp] lemma handle_acmd41_state (s : DecState) :
    (handle_acmd41 s).state = "GET RESPONSE R1" := rfl

lemma handle_cmd9_state (s : DecState) :
    (handle_cmd9 s).state = s.state ∨ (handle_cmd9 s).state = "IDLE" := by
  simp only [handle_cmd9]
  split <;> split
  · left
    simp only [pushRead_state, putc_state]
  · right
    rfl
  · left
    simp only [pushRead_state, putc_state]
  · right
    rfl

lemma handle_cmd10_state (s : DecState) :
    (handle_cmd10 s).state = s.state ∨ (handle_cmd10 s).state = "GET RESPONSE R1" := by
  simp only [handle_cmd10]
  split
  · left
    simp only [pushRead_state, putc_state]
  · right
    rfl

lemma handle_cmd1_nprot (s t : DecState) (h : handle_cmd1 s = some t) : ¬ prot t.state := by
  simp only [handle_cmd1] at h
  split at h
  · exact absurd h (by simp)
  · split at h
    · exact absurd h (by simp)
    · rw [Option.some_inj] at h
      subst h
      intro hp
      rw [setState_state] at hp
      exact nprot_gr1 hp


lemma handlerFor_nprot (a : Bool) (c : String) (hnd : DecState → Option DecState)
    (hh : handlerFor a c = some hnd) (s t : DecState)
    (ht : hnd s = some t) (hs : pyStartsWith s.state "HANDLE CMD" = true) :
    ¬ prot t.state := by
  simp only [handlerFor] at hh
  by_cases ha : a = true
  · rw [if_pos ha] at hh
    by_cases hc : c = "41"
    · rw [if_pos hc, Option.some_inj] at hh
      subst hh
      simp only [Option.some_inj] at ht
      subst ht
      intro hp
      rw [handle_acmd41_state] at hp
      exact nprot_gr1 hp
    · rw [if_neg hc] at hh
      exact absurd hh (by simp)
  · rw [if_neg ha] at hh
    by_cases h0 : c = "0"
    · rw [if_pos h0, Option.some_inj] at hh
      subst hh
      simp only [Option.some_inj] at ht
      subst ht
      intro hp
      rw [handle_cmd0_state] at hp
      exact nprot_gr1 hp
    · rw [if_neg h0] at hh
      by_cases h1 : c = "1"
      · rw [if_pos h1, Option.some_inj] at hh
        subst hh
        exact handle_cmd1_nprot s t ht
      · rw [if_neg h1] at hh
        by_cases h8 : c = "8"
        · rw [if_pos h8, Option.some_inj] at hh
          subst hh
          simp only [Option.some_inj] at ht
          subst ht
          intro hp
          rw [handle_cmd8_state] at hp
          exact nprot_gr7 hp
        · rw [if_neg h8] at hh
          by_cases h9 : c = "9"
          · rw [if_pos h9, Option.some_inj] at hh
            subst hh
            simp only [Option.some_inj] at ht
            subst ht
            intro hp
            rcases handle_cmd9_state s with he | he <;> rw [he] at hp
            · have hf := prot_not_hcmd _ hp
              rw [hs] at hf
              exact Bool.noConfusion hf
            · exact nprot_idle hp
          · rw [if_neg h9] at hh
            by_cases h10 : c = "10"
            · rw [if_pos h10, Option.some_inj] at hh
              subst hh
              simp only [Option.some_inj] at ht
              subst ht
              intro hp
              rcases handle_cmd10_state s with he | he <;> rw [he] at hp
              · have hf := prot_not_hcmd _ hp
                rw [hs] at hf
                exact Bool.noConfusion hf
              · exact nprot_gr1 hp
            · rw [if_neg h10] at hh
              by_cases h13 : c = "13"
              · rw [if_pos h13, Option.some_inj] at hh
                subst hh
                simp only [Option.some_inj] at ht
                subst ht
                intro hp
                rw [handle_cmd13_state] at hp
                exact nprot_gr2 hp
              · rw [if_neg h13] at hh
                by_cases h16 : c = "16"
                · rw [if_pos h16, Option.some_inj] at hh
                  subst hh
                  simp only [Option.some_inj] at ht
                  subst ht
                  intro hp
                  rw [handle_cmd16_state] at hp
                  exact nprot_gr1 hp
                · rw [if_neg h16] at hh
                  by_cases h17 : c = "17"
                  · rw [if_pos h17, Option.some_inj] at hh
                    subst hh
                    simp only [Option.some_inj] at ht
                    subst ht
                    intro hp
                    rw [handle_cmd17_state] at hp
                    exact nprot_gr1 hp
                  · rw [if_neg h17] at hh
                    by_cases h24 : c = "24"
                    · rw [if_pos h24, Option.some_inj] at hh
                      subst hh
                      simp only [Option.some_inj] at ht
                      subst ht
                      intro hp
                      rw [handle_cmd24_state] at hp
                      exact nprot_gr1 hp
                    · rw [if_neg h24] at hh
                      by_cases h49 : c = "49"
                      · rw [if_pos h49, Option.some_inj] at hh
                        subst hh
                        simp only [Option.some_inj] at ht
                        subst ht
                        intro hp
                        rw [handle_cmd49_state] at hp
                        exact nprot_gr1 hp
                      · rw [if_neg h49] at hh
                        by_cases h55 : c = "55"
                        · rw [if_pos h55, Option.some_inj] at hh
                          subst hh
                          simp only [Option.some_inj] at ht
                          subst ht
                          intro hp
                          rw [handle_cmd55_state] at hp
                          exact nprot_gr1 hp
                        · rw [if_neg h55] at hh
                          by_cases h58 : c = "58"
                          · rw [if_pos h58, Option.some_inj] at hh
                            subst hh
                            simp only [Option.some_inj] at ht
                            subst ht
                            intro hp
                            rw [handle_cmd58_state] at hp
                            exact nprot_gr3 hp
                          · rw [if_neg h58] at hh
                            by_cases h59 : c = "59"
                            · rw [if_pos h59, Option.some_inj] at hh
                              subst hh
                              simp only [Option.some_inj] at ht
                              subst ht
                              intro hp
                              rw [handle_cmd59_state] at hp
                              exact nprot_gr1 hp
                            · rw [if_neg h59] at hh
                              by_cases h999 : c = "999"
                              · rw [if_pos h999, Option.some_inj] at hh
                                subst hh
                                simp only [Option.some_inj] at ht
                                subst ht
                                intro hp
                                rw [handle_cmd999_state] at hp
                                exact nprot_gr1 hp
                              · rw [if_neg h999] at hh
                                exact absurd hh (by simp)

lemma r1_drinv (res : Nat) (s s1 : DecState) (h : handle_response_r1 res s = some s1)
    (hns : ¬ prot s.state) : prot s1.state → s1.is_cmd24 = true := by
  obtain ⟨h24, himp⟩ := r1_prot res s s1 h
  intro hp
  rcases himp hp with h2 | h2
  · rw [h24]
    exact h2
  · exact absurd h2 hns

lemma r1b_drinv (res : Nat) (s s1 : DecState) (h : handle_response_r1b res s = some s1)
    (hns : ¬ prot s.state) : prot s1.state → s1.is_cmd24 = true := by
  simp only [handle_response_r1b, Option.some_inj] at h
  subst h
  exact fun hp => absurd hp hns

lemma r2_drinv (res : Nat) (s s1 : DecState) (h : handle_response_r2 res s = some s1)
    (hns : ¬ prot s.state) : prot s1.state → s1.is_cmd24 = true := by
  simp only [handle_response_r2] at h
  split at h
  · split at h
    · exact absurd h (by simp)
    · rename_i t hr1
      rw [Option.some_inj] at h
      subst h
      intro hp
      rw [putx_state] at hp
      rw [putx_is_cmd24]
      exact r1_drinv res _ t hr1 hns hp
  · split at h
    · rw [Option.some_inj] at h
      subst h
      intro hp
      rw [r2_full_state] at hp
      exact absurd hp nprot_idle
    all_goals exact absurd h (by simp)

lemma r3_drinv (res : Nat) (s s1 : DecState) (h : handle_response_r3 res s = some s1)
    (hns : ¬ prot s.state) : prot s1.state → s1.is_cmd24 = true := by
  simp only [handle_response_r3] at h
  split at h
  · split at h
    · exact absurd h (by simp)
    · rename_i t hr1
      rw [Option.some_inj] at h
      subst h
      intro hp
      rw [putx_state] at hp
      rw [putx_is_cmd24]
      exact r1_drinv res _ t hr1 hns hp
  · split at h
    · rw [Option.some_inj] at h
      subst h
      exact fun hp => absurd hp hns
    · split at h
      · split at h
        · exact absurd h (by simp)
        · split at h
          · rw [Option.some_inj] at h
            subst h
            intro hp
            rw [endResp5_state] at hp
            exact absurd hp nprot_idle
          · split at h
            · exact absurd h (by simp)
            · rw [Option.some_inj] at h
              subst h
              intro hp
              rw [endResp5_state] at hp
              exact absurd hp nprot_idle
      all_goals exact absurd h (by simp)

lemma r7_drinv (res : Nat) (s s1 : DecState) (h : handle_response_r7 res s = some s1)
    (hns : ¬ prot s.state) : prot s1.state → s1.is_cmd24 = true := by
  simp only [handle_response_r7] at h
  split at h
  · split at h
    · exact absurd h (by simp)
    · rename_i t hr1
      rw [Option.some_inj] at h
      subst h
      intro hp
      rw [putx_state] at hp
      rw [putx_is_cmd24]
      exact r1_drinv res _ t hr1 hns hp
  · split at h
    · rw [Option.some_inj] at h
      subst h
      exact fun hp => absurd hp hns
    · split at h
      · split at h
        · exact absurd h (by simp)
        · rw [Option.some_inj] at h
          subst h
          intro hp
          rw [r7_full_state] at hp
          exact absurd hp nprot_idle
      all_goals exact absurd h (by simp)

lemma responseHandlerFor_drinv (suf : String) (rh : Nat → DecState → Option DecState)
    (hrf : responseHandlerFor suf = some rh) (res : Nat) (s s1 : DecState)
    (h : rh res s = some s1) (hns : ¬ prot s.state) : prot s1.state → s1.is_cmd24 = true := by
  simp only [responseHandlerFor] at hrf
  by_cases h1 : suf = "R1"
  · rw [if_pos h1, Option.some_inj] at hrf
    subst hrf
    exact r1_drinv res s s1 h hns
  · rw [if_neg h1] at hrf
    by_cases h2 : suf = "R1B"
    · rw [if_pos h2, Option.some_inj] at hrf
      subst hrf
      exact r1b_drinv res s s1 h hns
    · rw [if_neg h2] at hrf
      by_cases h3 : suf = "R2"
      · rw [if_pos h3, Option.some_inj] at hrf
        subst hrf
        exact r2_drinv res s s1 h hns
      · rw [if_neg h3] at hrf
        by_cases h4 : suf = "R3"
        · rw [if_pos h4, Option.some_inj] at hrf
          subst hrf
          exact r3_drinv res s s1 h hns
        · rw [if_neg h4] at hrf
          by_cases h5 : suf = "R7"
          · rw [if_pos h5, Option.some_inj] at hrf
            subst hrf
            exact r7_drinv res s s1 h hns
          · rw [if_neg h5] at hrf
            exact absurd hrf (by simp)

@[simp] lemma dataFirstByte_state (s : DecState) : (dataFirstByte s).state = s.state := by
  simp only [dataFirstByte, apply_ite DecState.state, ite_self]

@[simp] lemma dataFirstByte_is_cmd24 (s : DecState) :
    (dataFirstByte s).is_cmd24 = s.is_cmd24 := by
  simp only [dataFirstByte, apply_ite DecState.is_cmd24, ite_self]

@[simp] lemma cmd17_block_state (s : DecState) : (cmd17_block s).state = s.state := rfl

@[simp] lemma cmd17_crc_state (s : DecState) : (cmd17_crc s).state = "IDLE" := rfl

@[simp] lemma cmd17_start_block_state (s : DecState) :
    (cmd17_start_block s).state = s.state := rfl

@[simp] lemma cmd24_block_is_cmd24 (s : DecState) :
    (cmd24_block s).is_cmd24 = s.is_cmd24 := rfl

@[simp] lemma cmd24_start_block_is_cmd24 (s : DecState) :
    (cmd24_start_block s).is_cmd24 = s.is_cmd24 := rfl

lemma handle_data_cmd17_state (mi : Nat) (s : DecState) :
    (handle_data_cmd17 mi s).state = s.state ∨ (handle_data_cmd17 mi s).state = "IDLE" := by
  simp only [handle_data_cmd17]
  repeat' split
  all_goals first
    | (right; rfl)
    | (left; rfl)
    | (left; simp only [cmd17_block_state, pushRead_state, dataFirstByte_state]; done)

lemma handle_data_cmd24_is_cmd24 (mo : Nat) (s : DecState) :
    (handle_data_cmd24 mo s).is_cmd24 = s.is_cmd24 := by
  simp only [handle_data_cmd24]
  repeat' split
  all_goals first
    | rfl
    | (simp only [cmd24_block_is_cmd24, pushRead_is_cmd24, dataFirstByte_is_cmd24]; done)

lemma dr_tail_state (m0 : Bit3) (t : DecState) :
    (dr_tail m0 t).state = "WAIT WHILE CARD BUSY" ∨ (dr_tail m0 t).state = "IDLE" := by
  simp only [dr_tail]
  repeat' split
  all_goals first | (left; rfl) | (right; rfl)

lemma dr_tail_busy (m0 : Bit3) (t : DecState) (h24 : t.is_cmd24 = true) :
    (dr_tail m0 t).state = "WAIT WHILE CARD BUSY" := by
  simp only [dr_tail, put_is_cmd24, h24, eq_self_iff_true, if_true]

lemma wwb_state (mi : Nat) (s : DecState) :
    (wait_while_busy mi s).state = s.state ∨ (wait_while_busy mi s).state = "IDLE" := by
  simp only [wait_while_busy]
  repeat' split
  all_goals first | (right; rfl) | (left; rfl)

lemma hdr_drinv (mi : Nat) (s s1 : DecState) (h : handle_data_response mi s = some s1) :
    s1 = s ∨ ¬ prot s1.state := by
  simp only [handle_data_response] at h
  split at h
  · rw [Option.some_inj] at h
    subst h
    left
    rfl
  · split at h
    · split at h
      · split at h
        · rw [Option.some_inj] at h
          subst h
          right
          intro hp
          rcases dr_tail_state _ _ with he | he <;> rw [he] at hp
          · exact nprot_busy hp
          · exact nprot_idle hp
        · exact absurd h (by simp)
      · rw [Option.some_inj] at h
        subst h
        right
        intro hp
        rcases dr_tail_state _ _ with he | he <;> rw [he] at hp
        · exact nprot_busy hp
        · exact nprot_idle hp
    all_goals exact absurd h (by simp)

lemma hdr_valid_busy (mi : Nat) (s s1 : DecState)
    (h : handle_data_response mi s = some s1)
    (hv : (mi &&& 0x1f) &&& 0x11 = 0x01) (h24 : s.is_cmd24 = true) :
    s1.state = "WAIT WHILE CARD BUSY" := by
  simp only [handle_data_response] at h
  rw [if_neg (not_not_intro hv)] at h
  split at h
  · split at h
    · split at h
      · rw [Option.some_inj] at h
        subst h
        exact dr_tail_busy _ _ (by simp only [put_is_cmd24]; exact h24)
      · exact absurd h (by simp)
    · rw [Option.some_inj] at h
      subst h
      exact dr_tail_busy _ _ (by simp only [put_is_cmd24]; exact h24)
  all_goals exact absurd h (by simp)

set_option maxHeartbeats 3200000 in
lemma decode_data_drinv (T : Tables) (mo mi : Nat) (s s1 : DecState)
    (h : decode_data T mo mi s = some s1) (hi : DRInv s) : DRInv s1 := by
  simp only [decode_data] at h
  split at h
  · split at h
    · rw [Option.some_inj] at h
      subst h
      exact fun hp => hi hp
    · intro hp
      exact absurd (hct_prot _ _ _ _ h hp) nprot_gct
  · split at h
    · rename_i hs2
      intro hp
      have hp2 := hct_prot _ _ _ _ h hp
      rw [hs2] at hp2
      exact absurd hp2 nprot_gct
    · split at h
      · rename_i hsw
        split at h
        · exact absurd h (by simp)
        · rename_i hnd hhf
          split at h
          · exact absurd h (by simp)
          · rename_i t hht
            have hnp : ¬ prot t.state := handlerFor_nprot _ _ _ hhf _ _ hht hsw
            split at h <;>
              (rw [Option.some_inj] at h
               subst h
               intro hp
               exact absurd hp hnp)
      · split at h
        · rename_i hs2
          intro hp
          exact r2_drinv _ _ _ h (by rw [hs2]; exact nprot_gr2) hp
        · split at h
          · rename_i hs3
            intro hp
            exact r3_drinv _ _ _ h (by rw [hs3]; exact nprot_gr3) hp
          · split at h
            · rename_i hs7
              intro hp
              exact r7_drinv _ _ _ h (by rw [hs7]; exact nprot_gr7) hp
            · split at h
              · split at h
                · rw [Option.some_inj] at h
                  subst h
                  exact fun hp => hi hp
                · split at h
                  · exact absurd h (by simp)
                  · rename_i rh hrf
                    intro hp
                    exact responseHandlerFor_drinv _ _ hrf _ _ _ h nprot_idle hp
              · split at h
                · rename_i hs17
                  rw [Option.some_inj] at h
                  subst h
                  intro hp
                  rcases handle_data_cmd17_state mi _ with he | he <;> rw [he] at hp
                  · rw [hs17] at hp
                    exact absurd hp nprot_hdb17
                  · exact absurd hp nprot_idle
                · split at h
                  · rename_i hs24
                    rw [Option.some_inj] at h
                    subst h
                    intro hp
                    rw [handle_data_cmd24_is_cmd24]
                    exact hi (Or.inl hs24)
                  · split at h
                    · rename_i hsdr
                      intro hp
                      rcases hdr_drinv _ _ _ h with rfl | hnp
                      · exact hi (Or.inr hsdr)
                      · exact absurd hp hnp
                    · split at h
                      · rename_i hsb
                        rw [Option.some_inj] at h
                        subst h
                        intro hp
                        rcases wwb_state mi _ with he | he <;> rw [he] at hp
                        · rw [hsb] at hp
                          exact absurd hp nprot_busy
                        · exact absurd hp nprot_idle
                      · rw [Option.some_inj] at h
                        subst h
                        exact fun hp => hi hp

lemma drinv_step (T : Tables) (a b : Nat) (ev : PEvent) (s s1 : DecState)
    (h : decode T a b ev s = some s1) (hi : DRInv s) : DRInv s1 := by
  cases ev with
  | bits d1 d2 =>
    simp only [decode, Option.some_inj] at h
    subst h
    exact fun hp => hi hp
  | cs o n =>
    simp only [decode] at h
    split at h
    · rw [Option.some_inj] at h
      subst h
      exact fun hp => absurd hp nprot_idle
    · rw [Option.some_inj] at h
      subst h
      exact hi
  | transfer =>
    simp only [decode, Option.some_inj] at h
    subst h
    exact hi
  | data mosi miso =>
    simp only [decode] at h
    exact decode_data_drinv T mosi miso _ s1 h (fun hp => hi hp)

lemma drinv_decodeList (T : Tables) (evs : List TimedEvent) :
    ∀ (s s1 : DecState), decodeList T s evs = some s1 → DRInv s → DRInv s1 := by
  induction evs with
  | nil =>
    intro s s1 h hi
    simp only [decodeList, Option.some_inj] at h
    subst h
    exact hi
  | cons e rest ih =>
    intro s s1 h hi
    simp only [decodeList] at h
    split at h
    · exact absurd h (by simp)
    · rename_i s2 hstep
      exact ih _ _ h (drinv_step _ _ _ _ _ _ hstep hi)

lemma decode_data_dr (T : Tables) (mo mi : Nat) (s : DecState)
    (hst : s.state = "DATA RESPONSE") :
    decode_data T mo mi s = handle_data_response mi s := by
  simp [decode_data, hst]

/-- A run that exercises the invariant: CMD16 with argument 1 (block length
1), its R1 response, CMD24, its R1 response, the 0xFE start token and a
single data byte, ending in the `DATA RESPONSE` state. -/
def c10_events : List TimedEvent :=
  bpair 0 0x50 0xff ++ bpair 8 0x00 0xff ++ bpair 16 0x00 0xff ++ bpair 24 0x00 0xff ++
  bpair 32 0x01 0xff ++ bpair 40 0x01 0xff ++
  bpair 48 0xff 0xff ++
  bpair 56 0xff 0x00 ++
  bpair 64 0x58 0xff ++ bpair 72 0x00 0xff ++ bpair 80 0x00 0xff ++ bpair 88 0x00 0xff ++
  bpair 96 0x00 0xff ++ bpair 104 0x01 0xff ++
  bpair 112 0xff 0xff ++
  bpair 120 0xff 0x00 ++
  bpair 128 0xfe 0xff ++
  bpair 136 0xab 0xff

def c10_state : DecState := (decodeList tablesEmpty resetState c10_events).getD resetState

/-- C10: in every state reachable from the reset state by any packet
sequence, whenever the phase is `DATA RESPONSE` the write-block flag
`is_cmd24` is true; consequently every data-response byte passing the
`(miso and 0x1f) and 0x11 == 0x01` validity mask transitions the machine to
`WAIT WHILE CARD BUSY`, never to `IDLE`. -/
theorem c10_data_response_invariant (T : Tables) (evs : List TimedEvent) (s : DecState)
    (h : decodeList T resetState evs = some s) :
    (s.state = "DATA RESPONSE" → s.is_cmd24 = true) ∧
    (∀ (a b mosi miso : Nat) (s1 : DecState), s.state = "DATA RESPONSE" →
        (miso &&& 0x1f) &&& 0x11 = 0x01 →
        decode T a b (.data mosi miso) s = some s1 →
        s1.state = "WAIT WHILE CARD BUSY") := by
  have hinv : DRInv s := drinv_decodeList T evs resetState s h (fun hp => absurd hp nprot_idle)
  refine ⟨fun hst => hinv (Or.inr hst), ?_⟩
  intro a b mosi miso s1 hst hv hd
  simp only [decode] at hd
  rw [decode_data_dr T mosi miso _ (by exact hst)] at hd
  exact hdr_valid_busy miso _ s1 hd hv (by exact hinv (Or.inr hst))

set_option maxRecDepth 20000 in
/-- Witness for C10 at the concrete `c10_events` run: the run ends in the
`DATA RESPONSE` state, the invariant yields `is_cmd24 = true` there, and the
valid data-response byte 0x05 moves the machine to `WAIT WHILE CARD BUSY`. -/
theorem c10_data_response_invariant_witness :
    c10_state.state = "DATA RESPONSE" ∧ c10_state.is_cmd24 = true ∧
    ((decode tablesEmpty 144 152 (.data 0xff 0x05) c10_state).getD resetState).state =
      "WAIT WHILE CARD BUSY" :=
  ⟨rfl,
   (c10_data_response_invariant tablesEmpty c10_events c10_state rfl).1 rfl,
   (c10_data_response_invariant tablesEmpty c10_events c10_state rfl).2 144 152 0xff 0x05
     ((decode tablesEmpty 144 152 (.data 0xff 0x05) c10_state).getD resetState) rfl
     (by decide) rfl⟩
